import Mathlib

/-!
Shallow embedding of the field-mapping and incremental-migration engine of the
GHL-to-HubSpot migration repository.  JavaScript strings are modelled as Lean
strings (lists of characters, with ASCII case mapping), JavaScript
undefined/null/absent string fields as `Option String`, MongoDB `_id`
surrogate keys as `Nat`, and the external Date facilities (`Date.parse`,
`new Date(x).toISOString()`) as explicit function parameters, since they are
host-environment collaborators.  Every definition is translated from the
source files named in its doc comment.
-/

namespace Js

/-- ASCII case lowering, the model of `String.prototype.toLowerCase`. -/
def jsToLower (c : Char) : Char :=
  if 'A' ≤ c ∧ c ≤ 'Z' then Char.ofNat (c.toNat + 32) else c

/-- ASCII case raising, the model of `String.prototype.toUpperCase`. -/
def jsToUpper (c : Char) : Char :=
  if 'a' ≤ c ∧ c ≤ 'z' then Char.ofNat (c.toNat - 32) else c

/-- Model of `s.toLowerCase()`. -/
def lowerStr (s : String) : String := ⟨s.data.map jsToLower⟩

/-- Model of `s.toUpperCase()`. -/
def upperStr (s : String) : String := ⟨s.data.map jsToUpper⟩

/-- Whitespace recognised by `String.prototype.trim` (ASCII part). -/
def isJsWs (c : Char) : Bool :=
  decide (c = ' ' ∨ c = '\t' ∨ c = '\n' ∨ c = '\r' ∨
    c = Char.ofNat 11 ∨ c = Char.ofNat 12)

/-- Trimming on character lists: drop whitespace at both ends. -/
def trimList (cs : List Char) : List Char :=
  ((cs.dropWhile isJsWs).reverse.dropWhile isJsWs).reverse

/-- Model of `s.trim()`. -/
def jsTrim (s : String) : String := ⟨trimList s.data⟩

/-- JavaScript truthiness of a possibly-absent string: absent and the empty
string are falsy. -/
def strTruthy : Option String → Bool
  | none => false
  | some s => s != ""

/-- Model of `a || b` where `a` is a possibly-absent string and `b` a string
default. -/
def orS (a : Option String) (b : String) : String :=
  match a with
  | some s => if s = "" then b else s
  | none => b

/-- Model of `a || b` where both sides are possibly-absent strings. -/
def jsOrO (a b : Option String) : Option String :=
  if strTruthy a then a else b

/-- Character class `[a-z0-9]` used by the slug regexes. -/
def isSlugChar (c : Char) : Bool :=
  decide (('a' ≤ c ∧ c ≤ 'z') ∨ ('0' ≤ c ∧ c ≤ '9'))

/-- Case-insensitive class `[a-z0-9]` with the `i` regex flag, i.e.
`[a-zA-Z0-9]`, used by `normalizeEnumerationValue`. -/
def isSlugCharCI (c : Char) : Bool :=
  decide (('a' ≤ c ∧ c ≤ 'z') ∨ ('A' ≤ c ∧ c ≤ 'Z') ∨ ('0' ≤ c ∧ c ≤ '9'))

/-- Model of `.replace(/[^K]+/g, "_")` for a kept-character class `keep`:
every maximal run of characters outside `keep` becomes one underscore.  The
boolean argument records whether the previous character was part of such a
run. -/
def collapseAux (keep : Char → Bool) : Bool → List Char → List Char
  | _, [] => []
  | inRun, c :: rest =>
    if keep c then c :: collapseAux keep false rest
    else if inRun then collapseAux keep true rest
    else '_' :: collapseAux keep true rest

/-- Model of `.replace(/[^a-z0-9]+/g, "_")`. -/
def collapseRuns (cs : List Char) : List Char := collapseAux isSlugChar false cs

/-- Model of `.replace(/^_+|_+$/g, "")`: strip leading and trailing
underscores. -/
def stripUnderscores (cs : List Char) : List Char :=
  ((cs.dropWhile (· == '_')).reverse.dropWhile (· == '_')).reverse

/-- Common body of the `toHubspotPropertyName` helpers:
`` `${name}`.toLowerCase().replace(/[^a-z0-9]+/g,"_").replace(/^_+|_+$/g,"").slice(0,maxLen) ``. -/
def slugCore (maxLen : Nat) (s : String) : String :=
  ⟨(stripUnderscores (collapseRuns (s.data.map jsToLower))).take maxLen⟩

end Js

namespace CustomFields

/-- Source: src/hubspot/customFields/createCustomFields.mjs, lines 6-12 and
645-651 (both copies truncate to 50). -/
def toHubspotPropertyName (name : String) : String := Js.slugCore 50 name

end CustomFields

namespace Contacts

/-- Source: src/unnamed/part_002, lines 1444-1450 (contacts migrator file);
this namespaced variant truncates to 100. -/
def toHubspotPropertyName (name : String) : String := Js.slugCore 100 name

end Contacts

namespace CustomFields

/-- Destination enumeration option, the `{ label, value }` objects of
src/hubspot/customFields/createCustomFields.mjs.  (The object-form source
options are spread into the result; only the label and value keys are read
downstream, so the model keeps exactly those.) -/
structure EnumOption where
  label : String
  value : String
deriving Repr, DecidableEq

/-- Source custom-field definition as consumed by
`mapGhlFieldToHubspotProperty` (createCustomFields.mjs, line 665): the keys
`dataType`, `fieldKey`, `name` and `picklistOptions` are the ones the
function reads.  `picklistOptions = none` models a missing or non-array
value (the source guards with `Array.isArray`). -/
structure GhlField where
  dataType : Option String := none
  fieldKey : Option String := none
  name : Option String := none
  picklistOptions : Option (List String) := none

/-- Source: createCustomFields.mjs, lines 660-663:
`toHubspotEnumValue(value, fallback) = toHubspotPropertyName(value || "") || fallback || "option"`. -/
def toHubspotEnumValue (value fallback : String) : String :=
  let normalized := toHubspotPropertyName (Js.orS (some value) "")
  if normalized = "" then (if fallback = "" then "option" else fallback)
  else normalized

namespace Js

/-- The filtered-length measure facts that justify termination of the
option-value collision loop. -/
def filter_length_le {α : Type} (l : List α) (p q : α → Bool)
    (h : ∀ a, p a = true → q a = true) :
    (l.filter p).length ≤ (l.filter q).length :=
  List.Sublist.length_le (List.monotone_filter_right l h)

def filter_length_lt {used : List String} {v w : String} (hv : v ∈ used)
    (hlen : v.length < w.length) :
    (used.filter (fun u => w.length ≤ u.length)).length <
      (used.filter (fun u => v.length ≤ u.length)).length := by
  induction used with
  | nil => cases hv
  | cons a t ih =>
    have hle : (t.filter (fun u => w.length ≤ u.length)).length ≤
        (t.filter (fun u => v.length ≤ u.length)).length :=
      filter_length_le t _ _ (fun x hx => by
        simp only [decide_eq_true_eq] at hx ⊢
        omega)
    rcases List.mem_cons.mp hv with rfl | hvt
    · have h2 : ¬(w.length ≤ v.length) := by omega
      simp only [List.filter_cons, decide_eq_true_eq]
      rw [if_neg h2, if_pos (le_refl v.length)]
      simp only [List.length_cons]
      omega
    · have hlt := ih hvt
      by_cases hw : w.length ≤ a.length
      · have hv' : v.length ≤ a.length := by omega
        simp only [List.filter_cons, decide_eq_true_eq]
        rw [if_pos hw, if_pos hv']
        simp only [List.length_cons]
        omega
      · by_cases hv' : v.length ≤ a.length
        · simp only [List.filter_cons, decide_eq_true_eq]
          rw [if_neg hw, if_pos hv']
          simp only [List.length_cons]
          omega
        · simp only [List.filter_cons, decide_eq_true_eq]
          rw [if_neg hw, if_neg hv']
          exact hlt

end Js

/-- Source: createCustomFields.mjs, lines 735-738, the `while` loop
`while (usedValues.has(value)) value = value + "_" + (usedValues.size + 1)`.
`usedValues.size` is constant during one loop (insertion happens after it),
so the appended suffix is `used.length + 1`.  Termination: each round the
candidate grows strictly, so the set of used values at least as long as the
candidate shrinks strictly. -/
def collideValue (used : List String) (v : String) : String :=
  if hmem : v ∈ used then
    have := hmem
    collideValue used (v ++ "_" ++ toString (used.length + 1))
  else v
termination_by (used.filter (fun u => v.length ≤ u.length)).length
decreasing_by
  have hgrow : v.length < (v ++ "_" ++ toString (used.length + 1)).length := by
    simp only [String.length_append]
    have : 0 < ("_" : String).length := by decide
    omega
  exact Js.filter_length_lt hmem hgrow

/-- Body of the `picklist.map((option, index) => ...)` closure of
createCustomFields.mjs, lines 732-743, with the mutable `usedValues` set made
into an explicit accumulator (the set grows by exactly the chosen value after
each element, so its size equals the running index). -/
def buildOptionsGo : List String → Nat → List String → List EnumOption
  | [], _, _ => []
  | labelText :: rest, index, used =>
    let v0 := toHubspotEnumValue labelText ("option_" ++ toString (index + 1))
    let value := collideValue used v0
    ⟨labelText, value⟩ :: buildOptionsGo rest (index + 1) (used ++ [value])

/-- The enumeration `options` list built by `mapGhlFieldToHubspotProperty`
for a picklist (createCustomFields.mjs, lines 731-744). -/
def buildOptions (picklist : List String) : List EnumOption :=
  buildOptionsGo picklist 0 []

/-- Result shape of `mapGhlFieldToHubspotProperty`:
`{ name, label, type, fieldType, options }`. -/
structure HubspotProperty where
  name : String
  label : String
  type : String
  fieldType : String
  options : Option (List EnumOption)
deriving Repr, DecidableEq

/-- The `switch (dataType)` of `mapGhlFieldToHubspotProperty`
(createCustomFields.mjs, lines 674-729), rendered as the equivalent chain of
string comparisons, producing the `{type, fieldType}` pair. -/
def ghlDataTypeToTypeFieldType (dataType : String) : String × String :=
  if dataType = "CHECKBOX" then ("bool", "booleancheckbox")
  else if dataType = "LARGE_TEXT" then ("string", "textarea")
  else if dataType = "NUMBER" ∨ dataType = "NUMERIC" ∨ dataType = "NUMERICAL" ∨
    dataType = "MONETORY" then ("number", "number")
  else if dataType = "DATE" then ("date", "date")
  else if dataType = "DATETIME" then ("datetime", "datetime")
  else if dataType = "DROPDOWN" ∨ dataType = "SINGLE_SELECT" ∨
    dataType = "SINGLE_OPTIONS" ∨ dataType = "RADIO" then ("enumeration", "select")
  else if dataType = "MULTI_SELECT" ∨ dataType = "MULTIPLE_OPTIONS" then
    ("enumeration", "checkbox")
  else if dataType = "PHONE" then ("string", "phone")
  else if dataType = "EMAIL" then ("string", "email")
  else if dataType = "WEBSITE" then ("string", "text")
  else if dataType = "FILE_UPLOAD" then ("string", "text")
  else ("string", "text")

/-- Source: createCustomFields.mjs, lines 665-746.  `options` stays absent
(`none`) unless the mapped type is an enumeration. -/
def mapGhlFieldToHubspotProperty (ghlField : GhlField) : HubspotProperty :=
  let dataType := Js.upperStr (Js.orS ghlField.dataType "TEXT")
  let baseName := Js.orS (Js.jsOrO ghlField.fieldKey ghlField.name) "custom"
  let name := (fun n => if n = "" then "custom" else n) (toHubspotPropertyName baseName)
  let label := Js.orS (Js.jsOrO ghlField.name ghlField.fieldKey) "GHL Custom Field"
  let tf := ghlDataTypeToTypeFieldType dataType
  let options : Option (List EnumOption) :=
    if tf.1 = "enumeration" then some (buildOptions (ghlField.picklistOptions.getD []))
    else none
  ⟨name, label, tf.1, tf.2, options⟩

/-- Input to `normalizeOptions` (createCustomFields.mjs, line 14): a source
option is null, a bare string, or an object carrying optional label, value
and name keys. -/
inductive OptionInput where
  | nullv
  | str (s : String)
  | obj (label value name : Option String)
deriving Repr, DecidableEq

/-- Source: createCustomFields.mjs, lines 14-26 (`filter` of null then `map`,
composed here as a `filterMap`). -/
def normalizeOptions (options : List OptionInput) : List EnumOption :=
  options.filterMap (fun o =>
    match o with
    | .nullv => none
    | .str label =>
      some ⟨label, (fun n => if n = "" then "option" else n) (toHubspotPropertyName label)⟩
    | .obj l v n =>
      let label := Js.orS (Js.jsOrO l (Js.jsOrO v n)) "Option"
      let value := Js.orS v
        ((fun n2 => if n2 = "" then "option" else n2) (toHubspotPropertyName label))
      some ⟨label, value⟩)

/-- Object-form input of `normalizeFieldDefinition`
(createCustomFields.mjs, line 28): the keys it reads. -/
structure FieldDef where
  label : Option String := none
  name : Option String := none
  fieldKey : Option String := none
  type : Option String := none
  fieldType : Option String := none
  options : Option (List OptionInput) := none
deriving Repr, DecidableEq

/-- A field passed to `normalizeFieldDefinition` is either a bare string or
an object. -/
inductive FieldInput where
  | strF (s : String)
  | objF (f : FieldDef)
deriving Repr, DecidableEq

/-- Result shape of `normalizeFieldDefinition` (the keys read downstream by
`createHubspotCustomFieldsOnObjectType`; the string branch carries no
options array, hence `none`). -/
structure NormalizedField where
  name : String
  label : String
  type : String
  fieldType : String
  options : Option (List EnumOption)
deriving Repr, DecidableEq

/-- The `typeAliases` lookup table of createCustomFields.mjs, lines 43-54. -/
def typeAliases (s : String) : Option String :=
  if s = "boolean" then some "bool"
  else if s = "bool" then some "bool"
  else if s = "string" then some "string"
  else if s = "enumeration" then some "enumeration"
  else if s = "number" then some "number"
  else if s = "numeric" then some "number"
  else if s = "datetime" then some "datetime"
  else if s = "date" then some "date"
  else if s = "phone" then some "phone_number"
  else if s = "phone_number" then some "phone_number"
  else none

/-- Source: createCustomFields.mjs, lines 28-85.  The boolean case is
special-cased into an enumeration with literal True/False options and the
`booleancheckbox` field type. -/
def normalizeFieldDefinition : FieldInput → NormalizedField
  | .strF field => ⟨toHubspotPropertyName field, field, "string", "text", none⟩
  | .objF field =>
    let label := Js.orS (Js.jsOrO field.label (Js.jsOrO field.name field.fieldKey))
      "Custom Field"
    let name := (fun n => if n = "" then "custom" else n)
      (toHubspotPropertyName (Js.orS field.name label))
    let options := normalizeOptions (field.options.getD [])
    let type0 := Js.orS field.type
      (if options.length > 0 then "enumeration" else "string")
    let type1 := (typeAliases (Js.lowerStr type0)).getD type0
    let fieldType := Js.orS field.fieldType
      (if type1 = "enumeration" then "select" else "text")
    let normalizedOptions :=
      if type1 = "bool" ∧ options.length = 0 then
        options ++ [⟨"True", "true"⟩, ⟨"False", "false"⟩]
      else options
    if type1 = "bool" then
      ⟨name, label, "enumeration", "booleancheckbox", some normalizedOptions⟩
    else
      ⟨name, label, type1, fieldType, some normalizedOptions⟩

end CustomFields

namespace Appointments

/-- Source: src/unnamed/part_002, lines 404-428.  Input is the possibly
absent status string (`!value` makes absent and empty strings fall through
to `undefined`); the raw key is `String(value).trim().toLowerCase()`. -/
def normalizeMeetingOutcome (value : Option String) : Option String :=
  match value with
  | none => none
  | some s =>
    if s = "" then none
    else
      let raw := Js.lowerStr (Js.jsTrim s)
      if raw = "" then none
      else if raw ∈ ["showed", "show", "attended", "kept", "completed", "done",
          "held"] then some "COMPLETED"
      else if raw ∈ ["no show", "noshow", "no_show", "no-show"] then
        some "NO_SHOW"
      else if raw ∈ ["canceled", "cancelled", "canceled_by_contact",
          "cancelled_by_contact", "canceled by contact"] then some "CANCELED"
      else if raw ∈ ["rescheduled", "reschedule"] then some "RESCHEDULED"
      else if raw ∈ ["scheduled", "confirmed", "booked", "pending"] then
        some "SCHEDULED"
      else none

/-- All keyword-bucket keys of `normalizeMeetingOutcome`, flattened. -/
def meetingOutcomeKeys : List String :=
  ["showed", "show", "attended", "kept", "completed", "done", "held",
   "no show", "noshow", "no_show", "no-show",
   "canceled", "cancelled", "canceled_by_contact", "cancelled_by_contact",
   "canceled by contact",
   "rescheduled", "reschedule",
   "scheduled", "confirmed", "booked", "pending"]

end Appointments

/-- A JavaScript value reaching `toTimestamp`: absent or null, a Date
instance (carrying its epoch-millisecond `getTime()`), a number (modelled as
an integer), or a string. -/
inductive JsTime where
  | undef
  | date (ms : Int)
  | num (n : Int)
  | str (s : String)
deriving Repr, DecidableEq

namespace Appointments

/-- Source: src/unnamed/part_002, lines 390-402.  `Date.parse` is the host
collaborator `dateParse` (`none` models NaN).  `!value` sends absent/null,
the number 0 and the empty string to `undefined`; Date instances are always
truthy. -/
def toTimestamp (dateParse : String → Option Int) : JsTime → Option Int
  | .undef => none
  | .date ms => some ms
  | .num n => if n = 0 then none else if n < 10 ^ 12 then some (n * 1000) else some n
  | .str s => if s = "" then none else dateParse s

end Appointments

namespace Opps

/-- Source: src/hubspot/opportunities/migrateOpportunities.mjs, lines
270-282 (textually identical to the appointments copy). -/
def toTimestamp (dateParse : String → Option Int) : JsTime → Option Int
  | .undef => none
  | .date ms => some ms
  | .num n => if n = 0 then none else if n < 10 ^ 12 then some (n * 1000) else some n
  | .str s => if s = "" then none else dateParse s

end Opps

namespace Migration

/-- JavaScript truthiness for the `JsTime` values fed to `toTimestamp` field
fallback chains (`a || b`). -/
def jsTimeTruthy : JsTime → Bool
  | .undef => false
  | .date _ => true
  | .num n => n != 0
  | .str s => s != ""

/-- Model of `a || b` on `JsTime` values. -/
def jsOrT (a b : JsTime) : JsTime := if jsTimeTruthy a then a else b

/-- Re-injection of an already computed `toTimestamp` result when it is fed
back into a `||` chain (as `buildAppointmentProperties` does for
`hs_timestamp`). -/
def optIntToJsTime : Option Int → JsTime
  | none => .undef
  | some n => .num n

/-- One row of the `GHLHubspotIdMap` staging collection. -/
structure IdMapEntry where
  ghlId : String
  objectTypeId : String
  hubspotId : String
deriving Repr, DecidableEq

/-- `findOne` on the id-map collection by `(ghlId, objectTypeId)`, projected
to the stored `hubspotId`. -/
def getMapping (idMap : List IdMapEntry) (ghlId objectTypeId : String) :
    Option String :=
  (idMap.find? (fun e => e.ghlId == ghlId && e.objectTypeId == objectTypeId)).map
    IdMapEntry.hubspotId

/-- `updateOne` upsert on `(ghlId, objectTypeId)`: replace the first
matching entry, else append. -/
def setMapping : List IdMapEntry → IdMapEntry → List IdMapEntry
  | [], e => [e]
  | x :: xs, e =>
    if x.ghlId == e.ghlId && x.objectTypeId == e.objectTypeId then e :: xs
    else x :: setMapping xs e

/-- Source: src/unnamed/part_002, lines 366-378 (the other migrator files
carry identical copies): the upsert is a no-op unless ghlId, hubspotId and
objectTypeId are all truthy. -/
def upsertGhlHubspotIdMap (idMap : List IdMapEntry)
    (ghlId hubspotId objectTypeId : Option String) : List IdMapEntry :=
  if Js.strTruthy ghlId && Js.strTruthy hubspotId && Js.strTruthy objectTypeId then
    setMapping idMap ⟨ghlId.getD "", objectTypeId.getD "", hubspotId.getD ""⟩
  else idMap

/-- One upsert event on the `hubspot_failed_migrations` collection. -/
structure FailureRecord where
  entityType : String
  ghlId : String
  reason : String
deriving Repr, DecidableEq

/-- Source: src/unnamed/part_002, lines 348-364 (identical copies
elsewhere).  The failure log is modelled as the history of successful
upsert events; the collection keys rows by (entityType, ghlId) and
overwrites the reason, and that keyed state is determined by the history.
Nothing is written when entityType or ghlId is falsy. -/
def recordFailedMigration (failures : List FailureRecord)
    (entityType ghlId : Option String) (reason : String) : List FailureRecord :=
  if Js.strTruthy entityType && Js.strTruthy ghlId then
    failures ++ [⟨entityType.getD "", ghlId.getD "", reason⟩]
  else failures

/-- The `if (lastProcessedId) await saveCheckpoint(db, id, { lastId })`
pattern of the single-cursor migrators: overwrite the checkpoint with the
record position when the surrogate id is present. -/
def saveCheckpointIf (checkpoint : Option Nat) (lastProcessedId : Option Nat) :
    Option Nat :=
  if lastProcessedId.isSome then lastProcessedId else checkpoint

/-- A `users` collection row, flattened to the keys `normalizeOwnerId` and
`findAssignedToUser` read (`hubSpot.id`, `hubSpot.ownerId`,
`hubSpot.userId`). -/
structure UserRecord where
  id : Option String := none
  hubSpotId : Option String := none
  hubSpotOwnerId : Option String := none
  hubSpotUserId : Option String := none
deriving Repr, DecidableEq

/-- Nullish coalescing `a ?? b` on optional strings (keeps empty strings,
unlike `||`). -/
def coalesce (a b : Option String) : Option String :=
  match a with
  | some x => some x
  | none => b

/-- The regex `^\d+$`. -/
def isAllDigits (s : String) : Bool :=
  s != "" && s.data.all (fun c => '0' ≤ c && c ≤ '9')

/-- Source: src/unnamed/part_002, lines 430-440 (and the identical copy in
migrateConversations.mjs): owner ids must be all-digit strings after
trimming, else null. -/
def normalizeOwnerId (userRecord : Option UserRecord) : Option String :=
  let raw := match userRecord with
    | none => none
    | some u => coalesce u.hubSpotId (coalesce u.hubSpotOwnerId u.hubSpotUserId)
  match raw with
  | none => none
  | some r =>
    let trimmed := Js.jsTrim r
    if isAllDigits trimmed then some trimmed else none

end Migration

open Migration

/-- A staged appointment document, with the keys the appointments migrator
reads.  `surrogateId` is the MongoDB `_id` (present on every stored
document). -/
structure Appointment where
  surrogateId : Nat
  id : Option String := none
  title : Option String := none
  name : Option String := none
  appointmentTitle : Option String := none
  startTime : JsTime := .undef
  startAt : JsTime := .undef
  startDate : JsTime := .undef
  endTime : JsTime := .undef
  endAt : JsTime := .undef
  endDate : JsTime := .undef
  notes : Option String := none
  description : Option String := none
  address : Option String := none
  appointmentStatus : Option String := none
  status : Option String := none
  dateAdded : JsTime := .undef
  createdAt : JsTime := .undef
  contactId : Option String := none
  contactInnerId : Option String := none
  ghlContactId : Option String := none
  userId : Option String := none
  assignedTo : Option String := none
  assignedUserId : Option String := none
  calendarUserId : Option String := none
  staffId : Option String := none
deriving Repr, DecidableEq

namespace Appointments

/-- Source: part_002, lines 380-388, at its string-typed call sites in
`buildAppointmentProperties` (the boolean branch cannot fire there). -/
def normalizePropertyValue (v : Option String) : Option String :=
  match v with
  | none => none
  | some s => if s = "" then none else some s

/-- The meeting property set produced by `buildAppointmentProperties`
(part_002, lines 442-468). -/
structure MeetingProperties where
  hs_meeting_title : String
  hs_meeting_body : Option String
  hs_meeting_start_time : Option Int
  hs_meeting_end_time : Option Int
  hs_meeting_location : Option String
  hs_meeting_outcome : Option String
  hs_timestamp : Option Int
  import_tag : String
  ghl_id : Option String
  hubspot_owner_id : Option String
deriving Repr, DecidableEq

/-- Source: part_002, lines 470-483: pick the first truthy of five user-id
keys and `findOne` the users collection by it. -/
def findAssignedToUser (users : List UserRecord) (a : Appointment) :
    Option UserRecord :=
  let userIdO := Js.jsOrO a.userId (Js.jsOrO a.assignedTo
    (Js.jsOrO a.assignedUserId (Js.jsOrO a.calendarUserId a.staffId)))
  if Js.strTruthy userIdO then users.find? (fun u => u.id == userIdO) else none

/-- Source: part_002, lines 442-468.  Note that the `hs_timestamp` fallback
feeds the already-converted `startTime` number back through `toTimestamp`. -/
def buildAppointmentProperties (parse : String → Option Int) (a : Appointment)
    (ownerId : Option String) : MeetingProperties :=
  let title := Js.orS (Js.jsOrO (normalizePropertyValue a.title)
      (Js.jsOrO (normalizePropertyValue a.name)
        (normalizePropertyValue a.appointmentTitle)))
    (Js.jsTrim ("GHL Appointment " ++ Js.orS a.id ""))
  let startTime := toTimestamp parse (jsOrT a.startTime (jsOrT a.startAt a.startDate))
  let endTime := toTimestamp parse (jsOrT a.endTime (jsOrT a.endAt a.endDate))
  let body := normalizePropertyValue (Js.jsOrO a.notes a.description)
  let address := normalizePropertyValue a.address
  let outcome := normalizeMeetingOutcome (Js.jsOrO a.appointmentStatus a.status)
  { hs_meeting_title := title
    hs_meeting_body := body
    hs_meeting_start_time := startTime
    hs_meeting_end_time := endTime
    hs_meeting_location := address
    hs_meeting_outcome := outcome
    hs_timestamp := toTimestamp parse
      (jsOrT a.dateAdded (jsOrT a.createdAt (optIntToJsTime startTime)))
    import_tag := "GHL_MIGRATION"
    ghl_id := a.id
    hubspot_owner_id := if Js.strTruthy ownerId then ownerId else none }

/-- Summary counters of `migrateAppointmentsToHubspot`. -/
structure AppSummary where
  processed : Nat := 0
  created : Nat := 0
  skippedAlreadyMapped : Nat := 0
  errors : Nat := 0
deriving Repr, DecidableEq

/-- One invocation of the destination meetings create call
(`hubspotClient.crm.objects.basicApi.create`). -/
structure AppointmentCreate where
  objectTypeId : String
  properties : MeetingProperties
  associationContactId : Option String
deriving Repr, DecidableEq

/-- The staging-store state owned by one appointments-migrator run, plus the
log of destination create invocations. -/
structure AppState where
  idMap : List IdMapEntry := []
  checkpoint : Option Nat := none
  failures : List FailureRecord := []
  createCalls : List AppointmentCreate := []
  summary : AppSummary := {}
deriving Repr, DecidableEq

/-- Source: part_002, lines 599-674, the body of
`for await (const appointment of cursor)`.  The destination create outcome
is the `oracle` argument (`.ok id` models a response, `.error msg` a thrown
error); `parse` models `Date.parse`; `users` is the read-only users
collection. -/
def migrateAppointmentStep (parse : String → Option Int)
    (users : List UserRecord) (objectTypeId appointmentMapObjectTypeId : String)
    (dryRun : Bool) (oracle : Except String (Option String)) (s : AppState)
    (a : Appointment) : AppState :=
  let lastProcessedId : Option Nat := some a.surrogateId
  if ¬ Js.strTruthy a.id then
    { s with checkpoint := saveCheckpointIf s.checkpoint lastProcessedId }
  else
    let s1 := { s with summary :=
      { s.summary with processed := s.summary.processed + 1 } }
    if Js.strTruthy (getMapping s1.idMap (a.id.getD "") appointmentMapObjectTypeId) then
      { s1 with
        summary := { s1.summary with
          skippedAlreadyMapped := s1.summary.skippedAlreadyMapped + 1 }
        checkpoint := saveCheckpointIf s1.checkpoint lastProcessedId }
    else
      let contactId := Js.jsOrO a.contactId (Js.jsOrO a.contactInnerId a.ghlContactId)
      let hubspotContactId :=
        if Js.strTruthy contactId then
          let m := getMapping s1.idMap (contactId.getD "") "contact"
          if Js.strTruthy m then m else none
        else none
      let assignedToUser := findAssignedToUser users a
      let ownerId := normalizeOwnerId assignedToUser
      let properties := buildAppointmentProperties parse a ownerId
      if dryRun then
        { s1 with
          summary := { s1.summary with created := s1.summary.created + 1 }
          checkpoint := saveCheckpointIf s1.checkpoint lastProcessedId }
      else
        match oracle with
        | .ok respId =>
          { s1 with
            createCalls := s1.createCalls ++
              [⟨objectTypeId, properties, hubspotContactId⟩]
            idMap := upsertGhlHubspotIdMap s1.idMap a.id respId
              (some appointmentMapObjectTypeId)
            summary := { s1.summary with created := s1.summary.created + 1 }
            checkpoint := saveCheckpointIf s1.checkpoint lastProcessedId }
        | .error msg =>
          { s1 with
            createCalls := s1.createCalls ++
              [⟨objectTypeId, properties, hubspotContactId⟩]
            failures := recordFailedMigration s1.failures (some "appointment")
              a.id msg
            summary := { s1.summary with errors := s1.summary.errors + 1 }
            checkpoint := saveCheckpointIf s1.checkpoint lastProcessedId }

/-- The full cursor loop over the selected appointment documents. -/
def migrateAppointmentsRun (parse : String → Option Int)
    (users : List UserRecord) (objectTypeId appointmentMapObjectTypeId : String)
    (dryRun : Bool) (oracle : Appointment → Except String (Option String)) :
    AppState → List Appointment → AppState
  | s, [] => s
  | s, a :: rest =>
    migrateAppointmentsRun parse users objectTypeId appointmentMapObjectTypeId
      dryRun oracle
      (migrateAppointmentStep parse users objectTypeId appointmentMapObjectTypeId
        dryRun (oracle a) s a) rest

/-- Source: part_002, lines 569-577: the cursor query
`{ id: { $exists: true, $ne: null } }`, restricted to `_id > lastId` only
when `resume` is set and a checkpoint with a truthy `lastId` exists. -/
def appointmentsQuery (resume : Bool) (cp : Option Nat)
    (records : List Appointment) : List Appointment :=
  records.filter (fun r => r.id.isSome &&
    (match resume, cp with
     | true, some lastId => decide (lastId < r.surrogateId)
     | _, _ => true))

end Appointments

/-- A staged calendar document, with the keys the calendar migrator reads. -/
structure Calendar where
  surrogateId : Nat
  id : Option String := none
  name : Option String := none
  title : Option String := none
  calendarName : Option String := none
deriving Repr, DecidableEq

namespace Calendars

/-- Source: part_002, lines 844-852, at its string-typed call sites in
`buildCalendarProperties`. -/
def normalizePropertyValue (v : Option String) : Option String :=
  match v with
  | none => none
  | some s => if s = "" then none else some s

/-- Source: part_002, lines 854-863: the single property
`{ [nameProperty]: name }`, modelled as the key/value pair. -/
def buildCalendarProperties (c : Calendar) (nameProperty : String) :
    String × String :=
  (nameProperty,
    Js.orS (Js.jsOrO (normalizePropertyValue c.name)
      (Js.jsOrO (normalizePropertyValue c.title)
        (normalizePropertyValue c.calendarName)))
      (Js.jsTrim ("GHL Calendar " ++ Js.orS c.id "")))

/-- Summary counters of `migrateCalendarsToHubspot`. -/
structure CalSummary where
  processed : Nat := 0
  created : Nat := 0
  skippedAlreadyMapped : Nat := 0
  errors : Nat := 0
deriving Repr, DecidableEq

/-- One destination calendar-object create invocation. -/
structure CalendarCreate where
  objectTypeId : String
  properties : String × String
deriving Repr, DecidableEq

/-- Staging-store state of one calendars-migrator run. -/
structure CalState where
  idMap : List IdMapEntry := []
  checkpoint : Option Nat := none
  failures : List FailureRecord := []
  createCalls : List CalendarCreate := []
  summary : CalSummary := {}
deriving Repr, DecidableEq

/-- Source: part_002, lines 925-979, the body of
`for await (const calendar of cursor)`. -/
def migrateCalendarStep (objectTypeId nameProperty : String) (dryRun : Bool)
    (oracle : Except String (Option String)) (s : CalState) (c : Calendar) :
    CalState :=
  let lastProcessedId : Option Nat := some c.surrogateId
  if ¬ Js.strTruthy c.id then
    { s with checkpoint := saveCheckpointIf s.checkpoint lastProcessedId }
  else
    let s1 := { s with summary :=
      { s.summary with processed := s.summary.processed + 1 } }
    if Js.strTruthy (getMapping s1.idMap (c.id.getD "") objectTypeId) then
      { s1 with
        summary := { s1.summary with
          skippedAlreadyMapped := s1.summary.skippedAlreadyMapped + 1 }
        checkpoint := saveCheckpointIf s1.checkpoint lastProcessedId }
    else
      let properties := buildCalendarProperties c nameProperty
      if dryRun then
        { s1 with
          summary := { s1.summary with created := s1.summary.created + 1 }
          checkpoint := saveCheckpointIf s1.checkpoint lastProcessedId }
      else
        match oracle with
        | .ok respId =>
          { s1 with
            createCalls := s1.createCalls ++ [⟨objectTypeId, properties⟩]
            idMap := upsertGhlHubspotIdMap s1.idMap c.id respId (some objectTypeId)
            summary := { s1.summary with created := s1.summary.created + 1 }
            checkpoint := saveCheckpointIf s1.checkpoint lastProcessedId }
        | .error msg =>
          { s1 with
            createCalls := s1.createCalls ++ [⟨objectTypeId, properties⟩]
            failures := recordFailedMigration s1.failures (some "calendar") c.id msg
            summary := { s1.summary with errors := s1.summary.errors + 1 }
            checkpoint := saveCheckpointIf s1.checkpoint lastProcessedId }

/-- The full cursor loop over the selected calendar documents. -/
def migrateCalendarsRun (objectTypeId nameProperty : String) (dryRun : Bool)
    (oracle : Calendar → Except String (Option String)) :
    CalState → List Calendar → CalState
  | s, [] => s
  | s, c :: rest =>
    migrateCalendarsRun objectTypeId nameProperty dryRun oracle
      (migrateCalendarStep objectTypeId nameProperty dryRun (oracle c) s c) rest

/-- Source: part_002, lines 903-911: same query shape as the appointments
migrator. -/
def calendarsQuery (resume : Bool) (cp : Option Nat) (records : List Calendar) :
    List Calendar :=
  records.filter (fun r => r.id.isSome &&
    (match resume, cp with
     | true, some lastId => decide (lastId < r.surrogateId)
     | _, _ => true))

end Calendars

/-- A general JavaScript value as it appears in property bags and custom
field values: absent, null, string, number (modelled as an integer),
boolean, or an array of strings. -/
inductive JsVal where
  | undef
  | vnull
  | vstr (s : String)
  | vnum (n : Int)
  | vbool (b : Bool)
  | varr (xs : List String)
deriving Repr, DecidableEq

namespace Js

/-- JavaScript truthiness on `JsVal`. -/
def jsValTruthy : JsVal → Bool
  | .undef => false
  | .vnull => false
  | .vstr s => s != ""
  | .vnum n => n != 0
  | .vbool b => b
  | .varr _ => true

/-- Model of `a || b` on `JsVal`. -/
def jsValOr (a b : JsVal) : JsVal := if jsValTruthy a then a else b

/-- Model of `a ?? b` on `JsVal` (only absent and null fall through). -/
def jsValCoalesce (a b : JsVal) : JsVal :=
  match a with
  | .undef => b
  | .vnull => b
  | v => v

/-- Injection of an optional string field into `JsVal`. -/
def jsValOfOptStr : Option String → JsVal
  | none => .undef
  | some s => .vstr s

/-- Model of `String(v)` / `v.toString()` (arrays join with commas). -/
def jsValToString : JsVal → String
  | .undef => "undefined"
  | .vnull => "null"
  | .vstr s => s
  | .vnum n => toString n
  | .vbool b => if b then "true" else "false"
  | .varr xs => String.intercalate "," xs

/-- The transform body of `normalizeEnumerationValue`:
`toString().trim().replace(/[^a-z0-9]+/gi,"_").replace(/^_+|_+$/g,"").toLowerCase()`. -/
def enumSlug (s : String) : String :=
  lowerStr ⟨stripUnderscores (collapseAux isSlugCharCI false (trimList s.data))⟩

/-- Source: migrateOpportunities.mjs, lines 434-442 (the contacts file in
part_002 carries a textually identical copy), at its string-typed call
sites: falsy input is returned unchanged. -/
def normalizeEnumerationValue (v : Option String) : Option String :=
  match v with
  | none => none
  | some s => if s = "" then some "" else some (enumSlug s)

/-- The same `normalizeEnumerationValue` at the `JsVal`-typed call sites of
`extractCompanyProperties`. -/
def normalizeEnumerationValueV (v : JsVal) : JsVal :=
  if jsValTruthy v then .vstr (enumSlug (jsValToString v)) else v

end Js

/-- A custom-field entry of a staged opportunity document
(`{ id, value, fieldValueString, fieldValueDatee }`). -/
structure OppCustomField where
  id : String
  value : JsVal := .undef
  fieldValueString : Option String := none
  fieldValueDatee : Option String := none
deriving Repr, DecidableEq

/-- A staged opportunity document, with the keys the opportunities migrator
reads (`contact*` fields flatten `opportunity.contact`). -/
structure Opportunity where
  surrogateId : Nat
  id : Option String := none
  name : Option String := none
  title : Option String := none
  displayName : Option String := none
  monetaryValue : JsVal := .undef
  amount : JsVal := .undef
  value : JsVal := .undef
  price : JsVal := .undef
  closedAt : JsTime := .undef
  closeDate : JsTime := .undef
  closedOn : JsTime := .undef
  status : Option String := none
  pipelineId : Option String := none
  contactId : Option String := none
  contactTags : List String := []
  contactPhone : Option String := none
  contactEmail : Option String := none
  apexId : Option String := none
  assignedTo : Option String := none
  customFields : List OppCustomField := []
deriving Repr, DecidableEq

namespace Opps

/-- Source: migrateOpportunities.mjs, lines 260-268 (the generic value
normalizer of that file). -/
def normalizePropertyValue : JsVal → Option JsVal
  | .undef => none
  | .vnull => none
  | .vstr s => if s = "" then none else some (.vstr s)
  | .vbool b => some (.vstr (if b then "true" else "false"))
  | v => some v

/-- Source: migrateOpportunities.mjs, lines 423-432: the opportunities file
resolves the assigned user from `assignedTo` only. -/
def findAssignedToUser (users : List UserRecord) (o : Opportunity) :
    Option UserRecord :=
  if Js.strTruthy o.assignedTo then users.find? (fun u => u.id == o.assignedTo)
  else none

/-- The deal property set of `buildDealProperties`
(migrateOpportunities.mjs, lines 443-505). -/
structure DealProperties where
  dealname : String
  dealstage : Option String
  import_tag : String
  ghl_id : Option String
  apex_id : Option String
  phone : Option String
  email : Option String
  status : Option String
  ghl_pipeline_id : Option String
  hs_tag_ids : Option String := none
  ghl_created_on : Option String := none
  ghl_notes : Option String := none
  product_status : Option String := none
  installment_start_date : Option String := none
  consultation_status : Option String := none
  hubspot_owner_id : Option String := none
  pipeline : Option String := none
  amount : Option JsVal := none
  closedate : Option Int := none
deriving Repr, DecidableEq

/-- The `opportunity.customFields.forEach` switch of `buildDealProperties`
(lines 471-489); `dateIso` models `new Date(x).toISOString()`. -/
def applyOppCustomField (dateIso : JsVal → String) (p : DealProperties)
    (cf : OppCustomField) : DealProperties :=
  if cf.id = "gyxG6J8U3DjXt4yfOd1R" then
    { p with ghl_created_on := some (dateIso cf.value) }
  else if cf.id = "fG1SzEF1g2BFKEiWJnxW" then
    { p with ghl_notes := cf.fieldValueString }
  else if cf.id = "C6ibnKRfYinqxJirahN6" then
    { p with product_status := Js.normalizeEnumerationValue cf.fieldValueString }
  else if cf.id = "pktIJsey3UvYPAn2BjPE" then
    { p with installment_start_date := some (dateIso (Js.jsValOfOptStr cf.fieldValueDatee)) }
  else if cf.id = "d6LQnhGA6VWI6HCyXral" then
    { p with consultation_status := Js.normalizeEnumerationValue cf.fieldValueString }
  else p

/-- Source: migrateOpportunities.mjs, lines 443-505. -/
def buildDealProperties (parse : String → Option Int) (dateIso : JsVal → String)
    (users : List UserRecord) (o : Opportunity)
    (defaultDealstage defaultPipeline hsTagIds companyApexId : Option String) :
    DealProperties :=
  let dealname := Js.orS
    (Js.jsOrO ((normalizePropertyValue (Js.jsValOfOptStr o.name)).map Js.jsValToString)
      (Js.jsOrO ((normalizePropertyValue (Js.jsValOfOptStr o.title)).map Js.jsValToString)
        ((normalizePropertyValue (Js.jsValOfOptStr o.displayName)).map Js.jsValToString)))
    (Js.jsTrim ("GHL Opportunity " ++ Js.orS o.id ""))
  let dealstage := defaultDealstage
  let pipeline := defaultPipeline
  let amount := normalizePropertyValue
    (Js.jsValCoalesce o.monetaryValue
      (Js.jsValCoalesce o.amount (Js.jsValCoalesce o.value o.price)))
  let closedate := toTimestamp parse (jsOrT o.closedAt (jsOrT o.closeDate o.closedOn))
  let base : DealProperties :=
    { dealname := dealname
      dealstage := dealstage
      import_tag := "GHL_MIGRATION"
      ghl_id := o.id
      apex_id := Js.jsOrO companyApexId o.apexId
      phone := o.contactPhone
      email := o.contactEmail
      status := Js.normalizeEnumerationValue o.status
      ghl_pipeline_id := o.pipelineId }
  let base := if Js.strTruthy hsTagIds then { base with hs_tag_ids := hsTagIds } else base
  let base := o.customFields.foldl (applyOppCustomField dateIso) base
  let assignedToUser := findAssignedToUser users o
  let base :=
    match assignedToUser with
    | some u => if Js.strTruthy u.hubSpotId then { base with hubspot_owner_id := u.hubSpotId }
                else base
    | none => base
  let base := if Js.strTruthy pipeline then { base with pipeline := pipeline } else base
  let base := match amount with
    | some v => { base with amount := some v }
    | none => base
  let base := match closedate with
    | some t => { base with closedate := some t }
    | none => base
  base

/-- A destination deal-pipeline stage as returned by the pipelines API
(`metadata.isClosed` is a string). -/
structure DealStage where
  id : Option String := none
  displayOrder : Option Int := none
  isClosed : Option String := none
deriving Repr, DecidableEq

/-- A destination deal pipeline (`default` and `isDefault` are the two keys
`resolveDefaultPipeline` tests). -/
structure DealPipeline where
  id : Option String := none
  displayOrder : Option Int := none
  defaultFlag : Bool := false
  isDefaultFlag : Bool := false
  stages : Option (List DealStage) := none
deriving Repr, DecidableEq

/-- `[...xs].sort((a,b) => (a.displayOrder ?? 0) - (b.displayOrder ?? 0))`:
a stable sort by the defaulted display order. -/
def sortByDisplayOrder {α : Type} (key : α → Option Int) (l : List α) : List α :=
  l.mergeSort (fun a b => decide ((key a).getD 0 ≤ (key b).getD 0))

/-- Source: migrateOpportunities.mjs, lines 507-518. -/
def resolveDefaultPipeline (pipelines : List DealPipeline) : Option DealPipeline :=
  if pipelines.isEmpty then none
  else
    match pipelines.find? (fun p => p.defaultFlag || p.isDefaultFlag) with
    | some p => some p
    | none => (sortByDisplayOrder DealPipeline.displayOrder pipelines).head?

/-- Source: migrateOpportunities.mjs, lines 520-529. -/
def resolveDefaultStage (pipeline : Option DealPipeline) : Option DealStage :=
  let stages := match pipeline with
    | some p => p.stages.getD []
    | none => []
  if stages.isEmpty then none
  else
    let openStages := stages.filter (fun st => st.isClosed != some "true")
    let source := if openStages.length > 0 then openStages else stages
    (sortByDisplayOrder DealStage.displayOrder source).head?

/-- `x || null` on an optional string. -/
def truthyOrNull (o : Option String) : Option String :=
  if Js.strTruthy o then o else none

/-- Source: migrateOpportunities.mjs, lines 530-539, over the pipelines
returned by the destination API. -/
def getDefaultPipelineAndStage (pipelines : List DealPipeline) :
    Option String × Option String :=
  match resolveDefaultPipeline pipelines with
  | none => (none, none)
  | some p =>
    let stage := resolveDefaultStage (some p)
    (truthyOrNull p.id, truthyOrNull (match stage with
      | some st => st.id
      | none => none))

/-- Summary counters of `migrateOpportunitiesToHubspot`. -/
structure OppSummary where
  processed : Nat := 0
  created : Nat := 0
  skippedMissingStage : Nat := 0
  skippedAlreadyMapped : Nat := 0
  errors : Nat := 0
deriving Repr, DecidableEq

/-- One destination deals create invocation. -/
structure DealCreate where
  properties : DealProperties
deriving Repr, DecidableEq

/-- Per-record outcomes of the external destination calls made by the
opportunities loop body: tag resolution, primary-company lookup, apex-id
lookup, the deal create, and the two association creates. -/
structure OppOracles where
  tags : Except String (Option String) := .ok none
  primaryCompanyId : Except String (Option String) := .ok none
  companyApexId : Except String (Option String) := .ok none
  create : Except String (Option String) := .ok none
  assocContact : Except String Unit := .ok ()
  assocCompany : Except String Unit := .ok ()

/-- Staging-store state of one opportunities-migrator run. -/
structure OppState where
  idMap : List IdMapEntry := []
  checkpoint : Option Nat := none
  failures : List FailureRecord := []
  createCalls : List DealCreate := []
  summary : OppSummary := {}
deriving Repr, DecidableEq

/-- Source: migrateOpportunities.mjs, lines 605-737, the body of
`for await (const opportunity of cursor)`.  `fallbackStage` and
`fallbackPipeline` are the already-resolved
`defaultDealstage || resolvedDefaults.stageId` values of lines 595-601. -/
def migrateOpportunityStep (parse : String → Option Int)
    (dateIso : JsVal → String) (users : List UserRecord) (dryRun : Bool)
    (fallbackPipeline fallbackStage : Option String) (orc : OppOracles)
    (s : OppState) (o : Opportunity) : OppState :=
  let lastProcessedId : Option Nat := some o.surrogateId
  if ¬ Js.strTruthy o.id then
    { s with checkpoint := saveCheckpointIf s.checkpoint lastProcessedId }
  else
    let s1 := { s with summary :=
      { s.summary with processed := s.summary.processed + 1 } }
    if Js.strTruthy (getMapping s1.idMap (o.id.getD "") "opportunity") then
      { s1 with
        summary := { s1.summary with
          skippedAlreadyMapped := s1.summary.skippedAlreadyMapped + 1 }
        checkpoint := saveCheckpointIf s1.checkpoint lastProcessedId }
    else
      let tagOutcome : Option String × Nat :=
        if dryRun then (none, 0)
        else match orc.tags with
          | .ok t => (t, 0)
          | .error _ => (none, 1)
      let hsTagIds := tagOutcome.1
      let s2 := { s1 with summary :=
        { s1.summary with errors := s1.summary.errors + tagOutcome.2 } }
      let hubspotContactId :=
        if ¬ dryRun ∧ Js.strTruthy o.contactId then
          truthyOrNull (getMapping s2.idMap (o.contactId.getD "") "contact")
        else none
      let hubspotCompanyId :=
        if ¬ dryRun ∧ hubspotContactId.isSome then
          match orc.primaryCompanyId with
          | .ok c => c
          | .error _ => none
        else none
      let companyApexId :=
        if ¬ dryRun ∧ Js.strTruthy hubspotCompanyId then
          match orc.companyApexId with
          | .ok c => c
          | .error _ => none
        else none
      let s3 :=
        if ¬ dryRun ∧ Js.strTruthy o.contactId ∧ hubspotContactId = none then
          { s2 with failures := (recordFailedMigration s2.failures
              (some "opportunity") o.id "missing hubspot contact mapping") }
        else s2
      let properties := buildDealProperties parse dateIso users o fallbackStage
        fallbackPipeline hsTagIds companyApexId
      if ¬ Js.strTruthy properties.dealstage then
        { s3 with
          summary := { s3.summary with
            skippedMissingStage := s3.summary.skippedMissingStage + 1 }
          failures := recordFailedMigration s3.failures (some "opportunity") o.id
            "missing dealstage"
          checkpoint := saveCheckpointIf s3.checkpoint lastProcessedId }
      else if dryRun then
        { s3 with
          summary := { s3.summary with created := s3.summary.created + 1 }
          checkpoint := saveCheckpointIf s3.checkpoint lastProcessedId }
      else
        match orc.create with
        | .error msg =>
          { s3 with
            createCalls := s3.createCalls ++ [DealCreate.mk properties]
            failures := recordFailedMigration s3.failures (some "opportunity")
              o.id msg
            summary := { s3.summary with errors := s3.summary.errors + 1 }
            checkpoint := saveCheckpointIf s3.checkpoint lastProcessedId }
        | .ok respId =>
          let s4 := { s3 with createCalls := s3.createCalls ++ [DealCreate.mk properties] }
          if Js.strTruthy respId then
            let s5 := { s4 with
              idMap := setMapping s4.idMap ⟨o.id.getD "", "opportunity", respId.getD ""⟩ }
            let contactAssoc :=
              if hubspotContactId.isSome then orc.assocContact else .ok ()
            match contactAssoc with
            | .error msg =>
              { s5 with
                failures := recordFailedMigration s5.failures (some "opportunity")
                  o.id msg
                summary := { s5.summary with errors := s5.summary.errors + 1 }
                checkpoint := saveCheckpointIf s5.checkpoint lastProcessedId }
            | .ok _ =>
              let companyAssoc :=
                if hubspotCompanyId.isSome then orc.assocCompany else .ok ()
              match companyAssoc with
              | .error msg =>
                { s5 with
                  failures := recordFailedMigration s5.failures (some "opportunity")
                    o.id msg
                  summary := { s5.summary with errors := s5.summary.errors + 1 }
                  checkpoint := saveCheckpointIf s5.checkpoint lastProcessedId }
              | .ok _ =>
                { s5 with
                  summary := { s5.summary with created := s5.summary.created + 1 }
                  checkpoint := saveCheckpointIf s5.checkpoint lastProcessedId }
          else
            { s4 with
              summary := { s4.summary with created := s4.summary.created + 1 }
              checkpoint := saveCheckpointIf s4.checkpoint lastProcessedId }

/-- The full cursor loop over the selected opportunity documents. -/
def migrateOpportunitiesRun (parse : String → Option Int)
    (dateIso : JsVal → String) (users : List UserRecord) (dryRun : Bool)
    (fallbackPipeline fallbackStage : Option String)
    (orc : Opportunity → OppOracles) :
    OppState → List Opportunity → OppState
  | s, [] => s
  | s, o :: rest =>
    migrateOpportunitiesRun parse dateIso users dryRun fallbackPipeline
      fallbackStage orc
      (migrateOpportunityStep parse dateIso users dryRun fallbackPipeline
        fallbackStage (orc o) s o) rest

/-- Source: migrateOpportunities.mjs, lines 560-568: the query
`{ id: { $exists: true, $ne: null } }` with `_id > lastId` only when
resuming from a checkpoint with a truthy lastId. -/
def opportunitiesQuery (resume : Bool) (cp : Option Nat)
    (records : List Opportunity) : List Opportunity :=
  records.filter (fun r => r.id.isSome &&
    (match resume, cp with
     | true, some lastId => decide (lastId < r.surrogateId)
     | _, _ => true))

end Opps

namespace Js

/-- Injection of an optional boolean field into `JsVal`. -/
def jsValOfOptBool : Option Bool → JsVal
  | none => .undef
  | some b => .vbool b

/-- Reading a key of a JavaScript object modelled as an association list. -/
def getKey (props : List (String × JsVal)) (k : String) : Option JsVal :=
  (props.find? (fun kv => kv.1 == k)).map Prod.snd

/-- `obj[k] = v`: overwrite the first binding of `k`, else append. -/
def setKey : List (String × JsVal) → String → JsVal → List (String × JsVal)
  | [], k, v => [(k, v)]
  | (k', v') :: rest, k, v =>
    if k' == k then (k, v) :: rest else (k', v') :: setKey rest k v

/-- `undefined` for a missing key. -/
def jsValOfOpt : Option JsVal → JsVal
  | none => .undef
  | some v => v

/-- A `JsVal` viewed as an optional string (used for ids handed to the
store primitives). -/
def jsValToOptStr : JsVal → Option String
  | .vstr s => some s
  | _ => none

/-- `JSON.stringify` of a possibly-absent string id. -/
def jsonStringifyOptStr : Option String → String
  | none => "undefined"
  | some s => "\"" ++ s ++ "\""

end Js

/-- A custom-field entry of a staged contact document. -/
structure ContactCustomField where
  id : String
  value : JsVal := .undef
deriving Repr, DecidableEq

/-- A staged contact document, with the keys the contacts migrator reads. -/
structure ContactRecord where
  surrogateId : Nat
  id : Option String := none
  email : Option String := none
  firstName : Option String := none
  lastName : Option String := none
  companyName : Option String := none
  phone : Option String := none
  address1 : Option String := none
  city : Option String := none
  state : Option String := none
  postalCode : Option String := none
  country : Option String := none
  dateOfBirth : Option String := none
  dnd : Option Bool := none
  website : Option String := none
  assignedTo : Option String := none
  customFields : List ContactCustomField := []
deriving Repr, DecidableEq

namespace Contacts

/-- Source: part_002, lines 1434-1442 (the contacts-file copy of the
generic value normalizer). -/
def normalizePropertyValue : JsVal → Option JsVal
  | .undef => none
  | .vnull => none
  | .vstr s => if s = "" then none else some (.vstr s)
  | .vbool b => some (.vstr (if b then "true" else "false"))
  | v => some v

/-- Source: part_002, lines 1452-1462 (`buildBaseContactProperties`): keep
the normalized value of every entry whose cleaned value is defined. -/
def buildBaseContactProperties (properties : List (String × JsVal)) :
    List (String × JsVal) :=
  properties.foldl (fun acc kv =>
    match normalizePropertyValue kv.2 with
    | some cleaned => Js.setKey acc kv.1 cleaned
    | none => acc) []

/-- One word of `capitalizeFirstCharacter`:
`` `${v.charAt(0).toUpperCase()}${v.slice(1)}` ``. -/
def capWord (w : String) : String :=
  match w.data with
  | [] => ""
  | c :: rest => ⟨Js.jsToUpper c :: rest⟩

/-- Source: part_002, lines 1587-1593: falsy and whitespace-only values are
returned unchanged; otherwise each space-separated word is capitalized. -/
def capitalizeFirstCharacter (value : Option String) : Option String :=
  match value with
  | none => none
  | some s =>
    if s = "" then some s
    else
      let trimmed := Js.jsTrim s
      if trimmed = "" then some s
      else some (String.intercalate " " ((trimmed.splitOn " ").map capWord))

/-- `Array.isArray(v) ? v.map(normalizeEnumerationValue).join(';') :
normalizeEnumerationValue(v)`. -/
def enumJoin (v : JsVal) : JsVal :=
  match v with
  | .varr xs =>
    .vstr (String.intercalate ";" (xs.map (fun x => if x = "" then x else Js.enumSlug x)))
  | v => Js.normalizeEnumerationValueV v

/-- The `switch (customField.id)` of `extractCompanyProperties`
(part_002, lines 1596-1650); `dateIso` models
`new Date(x).toISOString()`. -/
def applyCompanyCustomField (dateIso : JsVal → String)
    (r : List (String × JsVal)) (cf : ContactCustomField) :
    List (String × JsVal) :=
  if cf.id = "gyxG6J8U3DjXt4yfOd1R" then
    Js.setKey r "ghl_created_date"
      (if Js.jsValTruthy cf.value then .vstr (dateIso cf.value) else .undef)
  else if cf.id = "Iq99flttTMyx0RKzlYY5" then Js.setKey r "services_offered" cf.value
  else if cf.id = "8fOwdZOm0bylfiaqOOkt" then Js.setKey r "hours_of_operation" cf.value
  else if cf.id = "G5kwvVM0yZotFHDzTtU0" then Js.setKey r "sf_reason_lost" cf.value
  else if cf.id = "zGWKpJ5VQTyE2CY2lIGX" then
    Js.setKey r "contracted_services" (enumJoin cf.value)
  else if cf.id = "cbD2OOhWDXDep6Bjw799" then Js.setKey r "monthly_gross_sales" cf.value
  else if cf.id = "9eHyavp1jfJTT7IJGRp8" then
    Js.setKey r "time_in_business_at_creation" cf.value
  else if cf.id = "5yPFgdkdeqyTDefOtsZs" then
    Js.setKey r "apex_new_ach_request_url" cf.value
  else if cf.id = "DlGjoPpF3vQzaav0Ui6u" then
    Js.setKey r "apex_new_rcc_request_url" cf.value
  else if cf.id = "xgqyCCP2GeDdydHfElRJ" then
    Js.setKey r "apex_new_card_request_url" cf.value
  else if cf.id = "T8Hpdsu1W5gErAwbXJH6" then
    Js.setKey r "existing_logo" (.vbool (cf.value == .vstr "Yes"))
  else if cf.id = "LC2oRMOXgxnGYI6yKcth" then
    Js.setKey r "preferred_website_language"
      (.vstr (if cf.value == .vstr "Spanish" then "es" else "en"))
  else if cf.id = "YW4GIuaBiGVbDJo7aPae" then
    Js.setKey r "website_features" (enumJoin cf.value)
  else if cf.id = "ZTCs1zCNZ19KZNkTx1hW" then Js.setKey r "cancellation_reason" cf.value
  else if cf.id = "509l4Gl65IKHoi8KpHMw" then Js.setKey r "sf_industry" cf.value
  else if cf.id = "4wAAp50m1fwku7MwfiRU" then
    Js.setKey r "via_industry" (Js.normalizeEnumerationValueV cf.value)
  else if cf.id = "Y52V3yr8R70CnDpfCEPJ" then Js.setKey r "apex_id" cf.value
  else r

/-- Source: part_002, lines 1594-1652. -/
def extractCompanyProperties (dateIso : JsVal → String) (company : JsVal)
    (ghlContact : ContactRecord) : List (String × JsVal) :=
  let result : List (String × JsVal) :=
    [("name", company),
     ("website_url", Js.jsValOfOptStr ghlContact.website),
     ("import_tag", .vstr "GHL_MIGRATION")]
  ghlContact.customFields.foldl (applyCompanyCustomField dateIso) result

/-- Source: part_002, lines 1568-1578 (the contacts-file
`findAssignedToUser` reads `assignedTo` only). -/
def findAssignedToUser (users : List UserRecord) (c : ContactRecord) :
    Option UserRecord :=
  if Js.strTruthy c.assignedTo then users.find? (fun u => u.id == c.assignedTo)
  else none

/-- The `switch (customField.id)` inside `createBaseHubspotContact`
(part_002, lines 1712-1738). -/
def applyContactCustomField (dateIso : JsVal → String)
    (p : List (String × JsVal)) (cf : ContactCustomField) :
    List (String × JsVal) :=
  if cf.id = "g6tSBxPatzAwTtIhHVvx" then
    Js.setKey p (toHubspotPropertyName "sfAccountId") cf.value
  else if cf.id = "kWZU041gXmtUwmuuKkv0" then
    Js.setKey p (toHubspotPropertyName "contactLanguage")
      (.vstr (if cf.value == .vstr "Spanish" then "es" else "en"))
  else if cf.id = "gyxG6J8U3DjXt4yfOd1R" then
    Js.setKey p "ghl_created_date" (.vstr (dateIso cf.value))
  else if cf.id = "4xAtW6G5ay7NcXlw3LTJ" then
    Js.setKey p (toHubspotPropertyName "smsOptIn") cf.value
  else if cf.id = "qUtfAwv63pRApArTvSjp" then
    Js.setKey p "secondary_email" cf.value
  else if cf.id = "vGf2kz1P3ZH10TQx7U9N" then
    Js.setKey p "secondaryphone" cf.value
  else if cf.id = "dn0Lzqfp4S5jukPm1DKg" then
    Js.setKey p "address2" cf.value
  else p

/-- One destination object create invocation made by the contacts path. -/
structure ObjCreate where
  objectType : String
  properties : List (String × JsVal)
deriving Repr, DecidableEq

/-- The staging-store collections touched by `createBaseHubspotContact` and
`createBaseHubspotCompany`, plus the log of destination create calls. -/
structure CtDb where
  idMap : List IdMapEntry := []
  failures : List FailureRecord := []
  createCalls : List ObjCreate := []
deriving Repr, DecidableEq

/-- The value returned by `createBaseHubspotCompany` on success. -/
structure CreatedCompany where
  id : Option String
  properties : List (String × JsVal)
deriving Repr, DecidableEq

/-- The value returned by `createBaseHubspotContact` on success. -/
structure CreatedContact where
  id : Option String
  properties : List (String × JsVal)
  companyId : Option String := none
  companyProperties : Option (List (String × JsVal)) := none
deriving Repr, DecidableEq

/-- Source: part_002, lines 1766-1821 (`createBaseHubspotCompany`).  The
primary-association-type lookup is warn-only; the association create call
itself (`companyAssoc`) propagates its error.  The id-map upsert passes
`ghlCompany?.id`, which the company property bag never contains, so it is a
guarded no-op. -/
def createBaseHubspotCompany (dryRun : Bool)
    (companyCreate : Except String (Option String))
    (companyAssoc : Except String Unit) (db : CtDb)
    (ghlCompany : List (String × JsVal)) (contactId : Option String) :
    CtDb × Except String CreatedCompany :=
  let companyLabel := Js.jsValOfOpt (Js.getKey ghlCompany "name")
  if ¬ Js.jsValTruthy companyLabel then
    ({ db with failures := (recordFailedMigration db.failures (some "company")
        (Js.jsValToOptStr (Js.jsValOfOpt (Js.getKey ghlCompany "id")))
        "missing company name") },
     .error ("company name is required to create a HubSpot company ghlCompany="
       ++ Js.jsonStringifyOptStr
         (Js.jsValToOptStr (Js.jsValOfOpt (Js.getKey ghlCompany "id")))))
  else
    let baseProperties := buildBaseContactProperties ghlCompany
    if dryRun then (db, .ok ⟨none, baseProperties⟩)
    else
      match companyCreate with
      | .error msg =>
        ({ db with createCalls := db.createCalls ++ [ObjCreate.mk "companies" baseProperties] },
         .error msg)
      | .ok respId =>
        let db1 := { db with
          createCalls := db.createCalls ++ [ObjCreate.mk "companies" baseProperties] }
        let db2 := { db1 with
          idMap := upsertGhlHubspotIdMap db1.idMap
            (Js.jsValToOptStr (Js.jsValOfOpt (Js.getKey ghlCompany "id"))) respId
            (some "company") }
        if contactId.isSome then
          match companyAssoc with
          | .error msg => (db2, .error msg)
          | .ok _ => (db2, .ok ⟨respId, baseProperties⟩)
        else (db2, .ok ⟨respId, baseProperties⟩)

/-- Source: part_002, lines 1660-1765 (`createBaseHubspotContact`, the copy
the contacts migrator invokes).  A falsy email records a "missing email"
failure (a no-op when the record has no source id) and throws before any
create call.  In dry-run mode the source dereferences the not-yet-declared
`companyProps` in its log statement, which raises a ReferenceError; that is
modelled as the thrown error of the dry-run branch. -/
def createBaseHubspotContact (dateIso : JsVal → String)
    (users : List UserRecord) (dryRun : Bool)
    (contactCreate companyCreate : Except String (Option String))
    (companyAssoc : Except String Unit) (db : CtDb)
    (ghlContact : ContactRecord) : CtDb × Except String CreatedContact :=
  if ¬ Js.strTruthy ghlContact.email then
    ({ db with failures := (recordFailedMigration db.failures (some "contact")
        ghlContact.id "missing email") },
     .error ("email is required to create a HubSpot contact ghlContact="
       ++ Js.jsonStringifyOptStr ghlContact.id))
  else
    let email := Js.lowerStr (ghlContact.email.getD "")
    let company :=
      if ¬ Js.strTruthy ghlContact.companyName then
        Js.jsTrim ("NO-COMPANY NAME - " ++ Js.orS ghlContact.firstName ""
          ++ " " ++ Js.orS ghlContact.lastName "")
      else ghlContact.companyName.getD ""
    let baseProperties : List (String × JsVal) :=
      [("email", .vstr email),
       ("firstname", Js.jsValOfOptStr (capitalizeFirstCharacter ghlContact.firstName)),
       ("lastname", Js.jsValOfOptStr (capitalizeFirstCharacter ghlContact.lastName)),
       ("phone", Js.jsValOfOptStr ghlContact.phone),
       ("company", .vstr company),
       ("address", Js.jsValOfOptStr ghlContact.address1),
       ("city", Js.jsValOfOptStr ghlContact.city),
       ("state", Js.jsValOfOptStr ghlContact.state),
       ("zip", Js.jsValOfOptStr ghlContact.postalCode),
       ("country", Js.jsValOfOptStr ghlContact.country),
       ("dateOfBirth", Js.jsValOfOptStr ghlContact.dateOfBirth),
       ("dnd", Js.jsValOfOptBool ghlContact.dnd),
       ("ghl_contact_id", Js.jsValOfOptStr ghlContact.id),
       ("import_tag", .vstr "GHL_MIGRATION")]
    let assignedToUser := findAssignedToUser users ghlContact
    let baseProperties :=
      match assignedToUser with
      | some u => Js.setKey baseProperties "hubspot_owner_id" (Js.jsValOfOptStr u.hubSpotId)
      | none => baseProperties
    let baseProperties :=
      ghlContact.customFields.foldl (applyContactCustomField dateIso) baseProperties
    let properties := buildBaseContactProperties baseProperties
    if dryRun then (db, .error "companyProps is not defined")
    else
      match contactCreate with
      | .error msg =>
        ({ db with createCalls := db.createCalls ++ [ObjCreate.mk "contacts" properties] },
         .error msg)
      | .ok respId =>
        let db1 := { db with
          createCalls := db.createCalls ++ [ObjCreate.mk "contacts" properties] }
        let companyProps := extractCompanyProperties dateIso
          (Js.jsValOfOpt (Js.getKey properties "company")) ghlContact
        if Js.strTruthy respId then
          let companyProps := Js.setKey companyProps "hubspot_owner_id"
            (match assignedToUser with
             | some u => Js.jsValOfOptStr u.hubSpotId
             | none => .undef)
          match createBaseHubspotCompany dryRun companyCreate companyAssoc db1
              companyProps respId with
          | (db2, .error msg) => (db2, .error msg)
          | (db2, .ok cc) =>
            (db2, .ok ⟨respId, properties, cc.id, some cc.properties⟩)
        else (db1, .ok ⟨respId, properties, none, none⟩)

/-- The migration-loop counters of `migrateContactsToHubspot`. -/
structure CtSummary where
  processed : Nat := 0
  failed : Nat := 0
  assignedTo : Nat := 0
  noCompanyNameCount : Nat := 0
deriving Repr, DecidableEq

/-- Staging-store state of one contacts-migrator run. -/
structure CtState where
  idMap : List IdMapEntry := []
  checkpoint : Option Nat := none
  failures : List FailureRecord := []
  createCalls : List ObjCreate := []
  summary : CtSummary := {}
deriving Repr, DecidableEq

/-- Per-record outcomes of the destination calls made by the contacts path. -/
structure ContactOracles where
  contactCreate : Except String (Option String) := .ok none
  companyCreate : Except String (Option String) := .ok none
  companyAssoc : Except String Unit := .ok ()

/-- Source: part_002, lines 1976-2023, the body of the contacts
`while (await cursor.hasNext())` loop (without the limit check, applied by
the runner).  Note: there is no IdentityMapping pre-check — the record goes
straight to `createBaseHubspotContact`; the final `saveCheckpoint` is
unconditional. -/
def migrateContactStep (dateIso : JsVal → String) (users : List UserRecord)
    (dryRun : Bool) (orc : ContactOracles) (s : CtState)
    (contact : ContactRecord) : CtState :=
  let s0 :=
    if dryRun then
      { s with summary := { s.summary with processed := s.summary.processed + 1 } }
    else s
  let db : CtDb := ⟨s0.idMap, s0.failures, s0.createCalls⟩
  match createBaseHubspotContact dateIso users dryRun orc.contactCreate
      orc.companyCreate orc.companyAssoc db contact with
  | (db1, .ok created) =>
    let idMap2 :=
      if ¬ dryRun then
        upsertGhlHubspotIdMap db1.idMap contact.id created.id (some "contact")
      else db1.idMap
    let sum1 := { s0.summary with processed := s0.summary.processed + 1 }
    let sum2 :=
      if Js.jsValTruthy (Js.jsValOfOpt (Js.getKey created.properties "assignedTo")) then
        { sum1 with assignedTo := sum1.assignedTo + 1 }
      else sum1
    let sum3 :=
      if ¬ Js.jsValTruthy (Js.jsValOfOpt (Js.getKey created.properties "company")) then
        { sum2 with noCompanyNameCount := sum2.noCompanyNameCount + 1 }
      else sum2
    { idMap := idMap2
      checkpoint := some contact.surrogateId
      failures := db1.failures
      createCalls := db1.createCalls
      summary := sum3 }
  | (db1, .error msg) =>
    let sum1 := { s0.summary with failed := s0.summary.failed + 1 }
    { idMap := db1.idMap
      checkpoint := some contact.surrogateId
      failures := (recordFailedMigration db1.failures (some "contact")
        (coalesce contact.id (some (toString contact.surrogateId)))
        ("migration error: " ++ msg))
      createCalls := db1.createCalls
      summary := sum1 }

/-- The contacts cursor loop, with the `processed >= limit` break of the
source. -/
def migrateContactsRun (dateIso : JsVal → String) (users : List UserRecord)
    (dryRun : Bool) (orc : ContactRecord → ContactOracles) (limit : Option Nat) :
    CtState → List ContactRecord → CtState
  | s, [] => s
  | s, c :: rest =>
    if (match limit with
        | some n => decide (n ≤ s.summary.processed)
        | none => false) then s
    else
      migrateContactsRun dateIso users dryRun orc limit
        (migrateContactStep dateIso users dryRun (orc c) s c) rest

/-- Source: part_002, lines 1964-1975: the contacts query is `{}` (no id
filter) unless resuming from a checkpoint with a `lastId`, in which case it
is `{ _id: { $gt: lastId } }`; the cursor sorts by `_id` ascending. -/
def contactsQuery (resume : Bool) (cp : Option Nat)
    (records : List ContactRecord) : List ContactRecord :=
  match resume, cp with
  | true, some lastId => records.filter (fun r => decide (lastId < r.surrogateId))
  | _, _ => records

end Contacts

/-- A message inside a staged conversation document, with the keys the
classifiers and the loop read (`type` may be a string or a legacy numeric
code, hence `JsVal`). -/
structure Message where
  id : Option String := none
  mtype : JsVal := .undef
  channel : Option String := none
  messageType : Option String := none
  direction : Option String := none
  messageDirection : Option String := none
  status : Option String := none
  inbound : Option Bool := none
  outbound : Option Bool := none
  userId : Option String := none
deriving Repr, DecidableEq

/-- A staged conversation document (`contact*`/`opportunity*` flatten the
nested objects; a `none` messages field models a missing or non-array
value; `none` list entries model null messages). -/
structure Conversation where
  surrogateId : Nat
  contactId : Option String := none
  contactInnerId : Option String := none
  opportunityId : Option String := none
  opportunityInnerId : Option String := none
  assignedTo : Option String := none
  messages : Option (List (Option Message)) := none
deriving Repr, DecidableEq

namespace Convs

/-- `s.includes(sub)`: contiguous substring containment. -/
def jsIncludes (s sub : String) : Bool := decide (sub.data <:+: s.data)

/-- `String(message?.type || message?.channel || message?.messageType ||
"").toLowerCase()`, shared by the three channel classifiers
(migrateConversations.mjs, lines 294-322). -/
def msgRaw (m : Message) : String :=
  Js.lowerStr (Js.jsValToString (Js.jsValOr m.mtype
    (Js.jsValOr (Js.jsValOfOptStr m.channel)
      (Js.jsValOr (Js.jsValOfOptStr m.messageType) (.vstr "")))))

/-- `typeof message?.type === "number" ? message.type : null`. -/
def msgTypeNum (m : Message) : Option Int :=
  match m.mtype with
  | .vnum n => some n
  | _ => none

/-- `String(message?.messageType || "").toUpperCase()`. -/
def msgTypeUpper (m : Message) : String := Js.upperStr (Js.orS m.messageType "")

/-- Source: migrateConversations.mjs, lines 294-302. -/
def isSmsMessage (m : Message) : Bool :=
  if jsIncludes (msgRaw m) "sms" || jsIncludes (msgRaw m) "text" then true
  else msgTypeNum m == some 2 || msgTypeUpper m == "TYPE_SMS"

/-- Source: migrateConversations.mjs, lines 304-312. -/
def isEmailMessage (m : Message) : Bool :=
  if jsIncludes (msgRaw m) "email" || jsIncludes (msgRaw m) "mail" then true
  else msgTypeNum m == some 3 || msgTypeUpper m == "TYPE_EMAIL"

/-- Source: migrateConversations.mjs, lines 314-322. -/
def isCallMessage (m : Message) : Bool :=
  if jsIncludes (msgRaw m) "call" || jsIncludes (msgRaw m) "voicemail" then true
  else msgTypeNum m == some 1 || msgTypeUpper m == "TYPE_CALL"

/-- Source: migrateConversations.mjs, lines 324-327. -/
def isOpportunityActivityMessage (m : Message) : Bool :=
  msgTypeUpper m == "TYPE_ACTIVITY_OPPORTUNITY"

/-- Source: migrateConversations.mjs, lines 329-332. -/
def isAppointmentActivityMessage (m : Message) : Bool :=
  msgTypeUpper m == "TYPE_ACTIVITY_APPOINTMENT"

/-- Source: migrateConversations.mjs, lines 334-337. -/
def isContactActivityMessage (m : Message) : Bool :=
  msgTypeUpper m == "TYPE_ACTIVITY_CONTACT"

/-- Source: migrateConversations.mjs, lines 339-342. -/
def isInternalCommentMessage (m : Message) : Bool :=
  msgTypeUpper m == "TYPE_INTERNAL_COMMENT"

/-- `x || null` on an optional string. -/
def truthyOrNull (o : Option String) : Option String :=
  if Js.strTruthy o then o else none

/-- Summary counters of `migrateConversationsToHubspot`. -/
structure ConvSummary where
  processedConversations : Nat := 0
  processedMessages : Nat := 0
  createdNotes : Nat := 0
  createdActivityNotes : Nat := 0
  createdEmails : Nat := 0
  createdCalls : Nat := 0
  skippedNonSms : Nat := 0
  skippedMissingMappings : Nat := 0
  errors : Nat := 0
deriving Repr, DecidableEq

/-- One destination engagement create invocation (activity note, SMS note,
email or call), recorded by classification kind and message identity; the
per-kind property builders shape only the payload of this call. -/
structure ConvCreate where
  kind : String
  messageId : Option String
  contactId : Option String
  dealId : Option String
deriving Repr, DecidableEq

/-- Staging-store state of one conversations-migrator run.  The checkpoint
is the compound `(lastConversationId, lastMessageId)` position. -/
structure ConvState where
  idMap : List IdMapEntry := []
  checkpoint : Option (Nat × Option String) := none
  failures : List FailureRecord := []
  createCalls : List ConvCreate := []
  summary : ConvSummary := {}
deriving Repr, DecidableEq

/-- The per-conversation context resolved before the message loop
(migrateConversations.mjs, lines 686-698). -/
structure ConvCtx where
  conversationId : Option Nat
  hubspotContactId : Option String
  hubspotDealId : Option String
deriving Repr, DecidableEq

/-- Source: migrateConversations.mjs, lines 703-921, the body of
`for (let i = startIndex; i < messages.length; i += 1)`.  The two skip
branches (`skippedNonSms`, `skippedMissingMappings`) `continue` without
reaching the checkpoint save at the bottom of the loop; every
created/failed message reaches it. -/
def convMessageStep (dryRun : Bool)
    (oracle : Message → Except String (Option String)) (ctx : ConvCtx)
    (s : ConvState) (msg? : Option Message) : ConvState :=
  match msg? with
  | none => s
  | some message =>
    let s1 := { s with summary :=
      { s.summary with processedMessages := s.summary.processedMessages + 1 } }
    let isActivity := isOpportunityActivityMessage message
      || isAppointmentActivityMessage message
      || isContactActivityMessage message
      || isInternalCommentMessage message
    let isSms := isSmsMessage message
    let isEmail := isEmailMessage message
    let isCall := isCallMessage message
    if ¬(isActivity || isSms || isEmail || isCall) then
      { s1 with summary :=
        { s1.summary with skippedNonSms := s1.summary.skippedNonSms + 1 } }
    else if ctx.hubspotContactId = none ∧ ctx.hubspotDealId = none then
      { s1 with summary :=
        { s1.summary with
          skippedMissingMappings := s1.summary.skippedMissingMappings + 1 } }
    else
      let kind := if isActivity then "activity"
        else if isSms then "sms"
        else if isEmail then "email"
        else "call"
      let mapType := if isActivity then "note"
        else if isSms then "note"
        else if isEmail then "email"
        else "call"
      let s2 :=
        if dryRun then
          if isActivity then
            { s1 with summary := { s1.summary with
              createdActivityNotes := s1.summary.createdActivityNotes + 1 } }
          else if isSms then
            { s1 with summary := { s1.summary with
              createdNotes := s1.summary.createdNotes + 1 } }
          else if isEmail then
            { s1 with summary := { s1.summary with
              createdEmails := s1.summary.createdEmails + 1 } }
          else
            { s1 with summary := { s1.summary with
              createdCalls := s1.summary.createdCalls + 1 } }
        else
          match oracle message with
          | .ok respId =>
            let sA := { s1 with createCalls := s1.createCalls ++
              [ConvCreate.mk kind message.id ctx.hubspotContactId ctx.hubspotDealId] }
            let sB := { sA with idMap :=
              upsertGhlHubspotIdMap sA.idMap message.id respId (some mapType) }
            if isActivity then
              { sB with summary := { sB.summary with
                createdActivityNotes := sB.summary.createdActivityNotes + 1 } }
            else if isSms then
              { sB with summary := { sB.summary with
                createdNotes := sB.summary.createdNotes + 1 } }
            else if isEmail then
              { sB with summary := { sB.summary with
                createdEmails := sB.summary.createdEmails + 1 } }
            else
              { sB with summary := { sB.summary with
                createdCalls := sB.summary.createdCalls + 1 } }
          | .error msg =>
            { s1 with
              createCalls := s1.createCalls ++
                [ConvCreate.mk kind message.id ctx.hubspotContactId ctx.hubspotDealId]
              failures := (recordFailedMigration s1.failures
                (some "conversation_message") message.id msg)
              summary := { s1.summary with errors := s1.summary.errors + 1 } }
      match ctx.conversationId with
      | some cid =>
        { s2 with checkpoint := some (cid, truthyOrNull message.id) }
      | none => s2

/-- JavaScript `findIndex`: the index of the first match, or -1. -/
def jsFindIndex {α : Type} (p : α → Bool) (l : List α) : Int :=
  match l.findIdx? p with
  | some i => (i : Int)
  | none => -1

/-- Source: migrateConversations.mjs, lines 679-683:
`startIndex = Math.max(0, messages.findIndex((msg) => msg?.id ===
startMessageId))` when this conversation is the checkpointed one and a
message id was checkpointed, else 0.  Note the absence of `+ 1`. -/
def convStartIndex (conv : Conversation) (startConversationId : Option Nat)
    (startMessageId : Option String) : Nat :=
  let conversationId : Option Nat := some conv.surrogateId
  let messages := conv.messages.getD []
  if (match startConversationId with
      | some c => conversationId == some c
      | none => false) && Js.strTruthy startMessageId then
    (max 0 (jsFindIndex
      (fun msg? => (match msg? with
        | some m => m.id
        | none => none) == startMessageId) messages)).toNat
  else 0

/-- Source: migrateConversations.mjs, lines 671-919, the body of the
conversation `while` loop: resolve the per-conversation mappings, then run
the message loop from `startIndex`. -/
def convConversationStep (dryRun : Bool)
    (oracle : Message → Except String (Option String))
    (startConversationId : Option Nat) (startMessageId : Option String)
    (s : ConvState) (conv : Conversation) : ConvState :=
  let s1 := { s with summary := { s.summary with
    processedConversations := s.summary.processedConversations + 1 } }
  let messages := conv.messages.getD []
  let startIndex := convStartIndex conv startConversationId startMessageId
  let contactId := Js.jsOrO conv.contactId conv.contactInnerId
  let opportunityId := Js.jsOrO conv.opportunityId conv.opportunityInnerId
  let hubspotContactId :=
    if Js.strTruthy contactId then
      truthyOrNull (getMapping s1.idMap (contactId.getD "") "contact")
    else none
  let hubspotDealId :=
    if Js.strTruthy opportunityId then
      truthyOrNull (getMapping s1.idMap (opportunityId.getD "") "opportunity")
    else none
  let ctx : ConvCtx := ⟨some conv.surrogateId, hubspotContactId, hubspotDealId⟩
  (messages.drop startIndex).foldl (convMessageStep dryRun oracle ctx) s1

/-- The conversation cursor loop. -/
def migrateConversationsRun (dryRun : Bool)
    (oracle : Message → Except String (Option String))
    (startConversationId : Option Nat) (startMessageId : Option String) :
    ConvState → List Conversation → ConvState
  | s, [] => s
  | s, conv :: rest =>
    migrateConversationsRun dryRun oracle startConversationId startMessageId
      (convConversationStep dryRun oracle startConversationId startMessageId
        s conv) rest

/-- Source: migrateConversations.mjs, lines 624-638: when resuming from a
checkpoint with a truthy lastConversationId, the cursor query is
`{ _id: { $gte: startConversationId } }` — greater than OR EQUAL — else
`{}`. -/
def conversationsQuery (resume : Bool) (cp : Option (Nat × Option String))
    (convs : List Conversation) : List Conversation :=
  match resume, cp with
  | true, some (cid, _) => convs.filter (fun c => decide (cid ≤ c.surrogateId))
  | _, _ => convs

/-- Source: migrateConversations.mjs, lines 626-634: the resume start
position (`startMessageId = checkpoint.lastMessageId || null`). -/
def resumeStartIds (resume : Bool) (cp : Option (Nat × Option String)) :
    Option Nat × Option String :=
  match resume, cp with
  | true, some (cid, mid) => (some cid, truthyOrNull mid)
  | _, _ => (none, none)

end Convs

/-- A relation entry of a staged note document (`none` fields model absent
keys; `none` list entries model null relations). -/
structure NoteRelation where
  objectKey : Option String := none
  recordId : Option String := none
deriving Repr, DecidableEq

/-- A staged note document, with the keys the notes migrator reads.  A
`none` relations field models a missing or non-array value; the five time
fields feed the `createdAt || created || dateAdded || dateCreated ||
updatedAt` fallback chain. -/
structure NoteRecord where
  surrogateId : Nat
  id : Option String := none
  contactId : Option String := none
  opportunityId : Option String := none
  relations : Option (List (Option NoteRelation)) := none
  body : Option String := none
  bodyText : Option String := none
  createdAt : JsTime := .undef
  created : JsTime := .undef
  dateAdded : JsTime := .undef
  dateCreated : JsTime := .undef
  updatedAt : JsTime := .undef
deriving Repr, DecidableEq

namespace Notes

/-- Source: migrateNotes.mjs, lines 162-168: `String(value).trim()`, with
undefined/null and whitespace-only values sent to `undefined`. -/
def normalizeNoteBody (value : Option String) : Option String :=
  match value with
  | none => none
  | some s =>
    let normalized := Js.jsTrim s
    if normalized = "" then none else some normalized

/-- Source: migrateNotes.mjs, lines 170-182.  This copy of `toTimestamp`
falls back to `Date.now()` (the `now` collaborator) for falsy and
unparsable input instead of returning `undefined`; the numeric
seconds-versus-milliseconds heuristic is the same `< 1e12` test. -/
def noteToTimestamp (dateParse : String → Option Int) (now : Int) :
    JsTime → Int
  | .undef => now
  | .date ms => ms
  | .num n => if n = 0 then now else if n < 10 ^ 12 then n * 1000 else n
  | .str s =>
    if s = "" then now
    else match dateParse s with
      | some t => t
      | none => now

/-- Source: migrateNotes.mjs, lines 231-235:
`relations.find((relation) => relation?.objectKey === objectKey)` followed
by `match?.recordId || null`. -/
def getRelationRecordId (note : NoteRecord) (objectKey : String) :
    Option String :=
  let relations := note.relations.getD []
  match relations.find? (fun r => match r with
    | some rel => rel.objectKey == some objectKey
    | none => false) with
  | some (some rel) => if Js.strTruthy rel.recordId then rel.recordId else none
  | _ => none

/-- The note engagement payload built by `buildNoteProperties`
(migrateNotes.mjs, lines 193-201). -/
structure NoteProps where
  hs_note_body : String
  hs_timestamp : Int
  ghl_id : Option String
  hs_note_body_plain_text : Option String := none
deriving Repr, DecidableEq

/-- Source: migrateNotes.mjs, lines 184-203: the `null` result (no usable
body after trimming) is modelled as `none`. -/
def buildNoteProperties (dateParse : String → Option Int) (now : Int)
    (includePlainText : Bool) (note : NoteRecord) : Option NoteProps :=
  let htmlBody := normalizeNoteBody note.body
  let textBody := normalizeNoteBody note.bodyText
  if ¬ Js.strTruthy htmlBody ∧ ¬ Js.strTruthy textBody then none
  else
    let timestamp := noteToTimestamp dateParse now
      (jsOrT note.createdAt (jsOrT note.created (jsOrT note.dateAdded
        (jsOrT note.dateCreated note.updatedAt))))
    some { hs_note_body := (Js.jsOrO htmlBody textBody).getD ""
           hs_timestamp := timestamp
           ghl_id := note.id
           hs_note_body_plain_text :=
             if includePlainText && Js.strTruthy textBody
                 && textBody != htmlBody then
               textBody
             else none }

/-- The appointment fields the dangling-relation backfill reads
(migrateNotes.mjs, lines 332-338: `appointment?.contactId ||
appointment?.contact?.id` and `appointment?.opportunityId`). -/
structure ApptLookup where
  contactId : Option String := none
  contactInnerId : Option String := none
  opportunityId : Option String := none
deriving Repr, DecidableEq

/-- Summary counters of `migrateNotesToHubspot` (migrateNotes.mjs, lines
304-312). -/
structure NtSummary where
  processed : Nat := 0
  created : Nat := 0
  skippedMissingContactId : Nat := 0
  skippedMissingOpportunityId : Nat := 0
  skippedMissingHubspotId : Nat := 0
  skippedMissingBody : Nat := 0
  errors : Nat := 0
deriving Repr, DecidableEq

/-- One destination notes-create invocation, with the contact/deal
association targets pushed onto `associations`. -/
structure NoteCreate where
  properties : NoteProps
  contactAssoc : Option String := none
  dealAssoc : Option String := none
deriving Repr, DecidableEq

/-- Staging-store state of one notes-migrator run (the notes migrator
writes no FailureRecords and no IdentityMappings). -/
structure NtState where
  idMap : List IdMapEntry := []
  checkpoint : Option Nat := none
  createCalls : List NoteCreate := []
  summary : NtSummary := {}
deriving Repr, DecidableEq

/-- `x || null` on an optional string. -/
def truthyOrNull (o : Option String) : Option String :=
  if Js.strTruthy o then o else none

/-- Source: migrateNotes.mjs, lines 327-453, the body of
`for await (const note of cursor)`.  `fetchAppointment` is the
`getAppointmentById` collaborator for the dangling-appointment backfill.
Every branch — the missing-ids skip, the missing-mappings skip, the
missing-body skip, dry-run, create success and create failure — ends at
`if (lastProcessedId) await saveCheckpoint(...)`. -/
def migrateNoteStep (dateParse : String → Option Int) (now : Int)
    (includePlainText : Bool) (fetchAppointment : String → Option ApptLookup)
    (dryRun : Bool) (oracle : Except String Unit) (s : NtState)
    (note : NoteRecord) : NtState :=
  let lastProcessedId : Option Nat := some note.surrogateId
  let contactId0 := Js.jsOrO note.contactId (getRelationRecordId note "contact")
  let opportunityId0 :=
    Js.jsOrO note.opportunityId (getRelationRecordId note "opportunity")
  let appointmentId := getRelationRecordId note "appointment"
  let ids :=
    if Js.strTruthy appointmentId
        ∧ (¬ Js.strTruthy contactId0 ∨ ¬ Js.strTruthy opportunityId0) then
      match fetchAppointment (appointmentId.getD "") with
      | some appt =>
        (Js.jsOrO contactId0 (Js.jsOrO appt.contactId appt.contactInnerId),
         Js.jsOrO opportunityId0 appt.opportunityId)
      | none => (contactId0, opportunityId0)
    else (contactId0, opportunityId0)
  let contactId := ids.1
  let opportunityId := ids.2
  if ¬ Js.strTruthy contactId ∧ ¬ Js.strTruthy opportunityId then
    { s with
      summary := { s.summary with
        skippedMissingContactId := s.summary.skippedMissingContactId + 1
        skippedMissingOpportunityId :=
          s.summary.skippedMissingOpportunityId + 1 }
      checkpoint := saveCheckpointIf s.checkpoint lastProcessedId }
  else
    let s1 := { s with summary :=
      { s.summary with processed := s.summary.processed + 1 } }
    let hubspotContactId :=
      if Js.strTruthy contactId then
        truthyOrNull (getMapping s1.idMap (contactId.getD "") "contact")
      else none
    let s2 :=
      if Js.strTruthy contactId ∧ ¬ Js.strTruthy hubspotContactId then
        { s1 with summary := { s1.summary with
          skippedMissingHubspotId := s1.summary.skippedMissingHubspotId + 1 } }
      else s1
    let hubspotDealId :=
      if Js.strTruthy opportunityId then
        truthyOrNull (getMapping s2.idMap (opportunityId.getD "") "opportunity")
      else none
    let s3 :=
      if Js.strTruthy opportunityId ∧ ¬ Js.strTruthy hubspotDealId then
        { s2 with summary := { s2.summary with
          skippedMissingHubspotId := s2.summary.skippedMissingHubspotId + 1 } }
      else s2
    if ¬ Js.strTruthy hubspotContactId ∧ ¬ Js.strTruthy hubspotDealId then
      { s3 with checkpoint := saveCheckpointIf s3.checkpoint lastProcessedId }
    else
      match buildNoteProperties dateParse now includePlainText note with
      | none =>
        { s3 with
          summary := { s3.summary with
            skippedMissingBody := s3.summary.skippedMissingBody + 1 }
          checkpoint := saveCheckpointIf s3.checkpoint lastProcessedId }
      | some properties =>
        if dryRun then
          { s3 with
            summary := { s3.summary with created := s3.summary.created + 1 }
            checkpoint := saveCheckpointIf s3.checkpoint lastProcessedId }
        else
          match oracle with
          | .ok _ =>
            { s3 with
              createCalls := s3.createCalls
                ++ [NoteCreate.mk properties hubspotContactId hubspotDealId]
              summary := { s3.summary with created := s3.summary.created + 1 }
              checkpoint := saveCheckpointIf s3.checkpoint lastProcessedId }
          | .error _ =>
            { s3 with
              createCalls := s3.createCalls
                ++ [NoteCreate.mk properties hubspotContactId hubspotDealId]
              summary := { s3.summary with errors := s3.summary.errors + 1 }
              checkpoint := saveCheckpointIf s3.checkpoint lastProcessedId }

/-- The full cursor loop over the selected note documents (`limit`
truncates the cursor and is applied by the caller as a prefix). -/
def migrateNotesRun (dateParse : String → Option Int) (now : Int)
    (includePlainText : Bool) (fetchAppointment : String → Option ApptLookup)
    (dryRun : Bool) (oracle : NoteRecord → Except String Unit) :
    NtState → List NoteRecord → NtState
  | s, [] => s
  | s, n :: rest =>
    migrateNotesRun dateParse now includePlainText fetchAppointment dryRun
      oracle
      (migrateNoteStep dateParse now includePlainText fetchAppointment dryRun
        (oracle n) s n) rest

/-- Source: migrateNotes.mjs, lines 282-290: the `$or` base filter over
`contactId`/`opportunityId`/`relations.objectKey`. -/
def noteBaseMatch (r : NoteRecord) : Bool :=
  r.contactId.isSome || r.opportunityId.isSome ||
    (r.relations.getD []).any (fun rel => match rel with
      | some rel =>
        rel.objectKey == some "contact" || rel.objectKey == some "opportunity"
          || rel.objectKey == some "appointment"
      | none => false)

/-- Source: migrateNotes.mjs, lines 291-297: the base query is restricted
by `query._id = { $gt: new ObjectId(lastId) }` — STRICTLY greater — only
when `resume` is set and a checkpoint with a truthy `lastId` exists. -/
def notesQuery (resume : Bool) (cp : Option Nat) (records : List NoteRecord) :
    List NoteRecord :=
  records.filter (fun r => noteBaseMatch r &&
    (match resume, cp with
     | true, some lastId => decide (lastId < r.surrogateId)
     | _, _ => true))

end Notes

namespace Js

theorem mem_of_mem_dropWhile {α : Type} {p : α → Bool} {x : α} :
    ∀ {l : List α}, x ∈ l.dropWhile p → x ∈ l := by
  intro l h
  induction l with
  | nil => simp [List.dropWhile] at h
  | cons a t ih =>
    by_cases hpa : p a = true
    · simp [List.dropWhile, hpa] at h
      exact List.mem_cons_of_mem a (ih h)
    · simp [List.dropWhile, hpa] at h
      simp [h]

theorem head?_dropWhile_false {α : Type} {p : α → Bool} {c : α} :
    ∀ {l : List α}, (l.dropWhile p).head? = some c → p c = false := by
  intro l h
  induction l with
  | nil => simp [List.dropWhile] at h
  | cons a t ih =>
    by_cases hpa : p a = true
    · simp [List.dropWhile, hpa] at h
      exact ih h
    · simp [List.dropWhile, hpa] at h
      rw [← h]
      simpa using hpa

theorem stripTrail_decomp (p : Char → Bool) (u : List Char) :
    (u.reverse.dropWhile p).reverse ++ (u.reverse.takeWhile p).reverse = u := by
  rw [← List.reverse_append, List.takeWhile_append_dropWhile, List.reverse_reverse]

theorem mem_collapseAux {keep : Char → Bool} {x : Char} :
    ∀ {b : Bool} {l : List Char}, x ∈ collapseAux keep b l →
      keep x = true ∨ x = '_' := by
  intro b l
  induction l generalizing b with
  | nil => intro h; simp [collapseAux] at h
  | cons c t ih =>
    intro h
    by_cases hc : keep c = true
    · simp [collapseAux, hc] at h
      rcases h with h | h
      · exact Or.inl (h ▸ hc)
      · exact ih h
    · by_cases hb : b = true
      · simp [collapseAux, hc, hb] at h
        exact ih h
      · simp [collapseAux, hc, hb] at h
        rcases h with h | h
        · exact Or.inr h
        · exact ih h

theorem head?_collapseAux_true {keep : Char → Bool} {c : Char} :
    ∀ {l : List Char}, (collapseAux keep true l).head? = some c →
      keep c = true := by
  intro l
  induction l with
  | nil => intro h; simp [collapseAux] at h
  | cons a t ih =>
    intro h
    by_cases ha : keep a = true
    · simp [collapseAux, ha] at h
      exact h ▸ ha
    · simp [collapseAux, ha] at h
      exact ih h

theorem chain'_collapseAux {keep : Char → Bool}
    (hk : ∀ c, keep c = true → c ≠ '_') :
    ∀ (b : Bool) (l : List Char),
      List.Chain' (fun a b => ¬(a = '_' ∧ b = '_')) (collapseAux keep b l) := by
  intro b l
  induction l generalizing b with
  | nil => simp [collapseAux]
  | cons c t ih =>
    by_cases hc : keep c = true
    · simp only [collapseAux, hc, if_pos]
      refine List.chain'_cons'.mpr ⟨?_, ih false⟩
      intro y _
      exact fun hab => hk c hc hab.1
    · by_cases hb : b = true
      · simpa [collapseAux, hc, hb] using ih true
      · simp only [collapseAux, hc, hb]
        simp only [if_neg, Bool.false_eq_true, not_false_eq_true, if_false]
        refine List.chain'_cons'.mpr ⟨?_, ih true⟩
        intro y hy
        intro hab
        have := head?_collapseAux_true hy
        exact hk y this hab.2

theorem collapseAux_all_not_keep {keep : Char → Bool} :
    ∀ {l : List Char}, (∀ c ∈ l, keep c = false) →
      (collapseAux keep true l = [] ∧ collapseAux keep false l ∈ [[], ['_']]) := by
  intro l
  induction l with
  | nil => intro _; simp [collapseAux]
  | cons a t ih =>
    intro h
    have ha : keep a = false := h a (List.mem_cons_self a t)
    have ht : ∀ c ∈ t, keep c = false := fun c hc => h c (List.mem_cons_of_mem a hc)
    have := ih ht
    constructor
    · simp [collapseAux, ha, this.1]
    · simp [collapseAux, ha, this.1]

theorem slugCore_substring (n : Nat) (s : String) :
    (slugCore n s).data <:+: collapseRuns (s.data.map jsToLower) := by
  unfold slugCore
  set m := collapseRuns (s.data.map jsToLower) with hm
  have h1 : stripUnderscores m <:+: m := by
    unfold stripUnderscores
    set u := m.dropWhile (· == '_') with hu
    have hdec := stripTrail_decomp (· == '_') u
    refine ⟨m.takeWhile (· == '_'), (u.reverse.takeWhile (· == '_')).reverse, ?_⟩
    rw [List.append_assoc, hdec, hu, List.takeWhile_append_dropWhile]
  have h2 : (stripUnderscores m).take n <:+: stripUnderscores m :=
    ⟨[], (stripUnderscores m).drop n, by simp⟩
  exact h2.trans h1

theorem slugCore_length (n : Nat) (s : String) : (slugCore n s).length ≤ n := by
  unfold slugCore
  simp only [String.length]
  exact List.length_take_le n _

theorem slugCore_chars (n : Nat) (s : String) :
    ∀ c ∈ (slugCore n s).data, isSlugChar c = true ∨ c = '_' := by
  intro c hc
  have hinf := slugCore_substring n s
  have hmem : c ∈ collapseRuns (s.data.map jsToLower) := hinf.subset hc
  exact mem_collapseAux hmem

theorem slugCore_chain (n : Nat) (s : String) :
    List.Chain' (fun a b => ¬(a = '_' ∧ b = '_')) (slugCore n s).data := by
  have hk : ∀ c, isSlugChar c = true → c ≠ '_' := by
    intro c hc
    simp only [isSlugChar, decide_eq_true_eq] at hc
    rcases hc with ⟨h1, h2⟩ | ⟨h1, h2⟩ <;> (intro he; subst he; revert h1 h2; decide)
  have hchain := chain'_collapseAux hk false (s.data.map jsToLower)
  exact hchain.infix (slugCore_substring n s)

theorem slugCore_head (n : Nat) (s : String) :
    ∀ c, (slugCore n s).data.head? = some c → c ≠ '_' := by
  intro c hc
  unfold slugCore at hc
  set m := collapseRuns (s.data.map jsToLower) with hm
  rcases Nat.eq_zero_or_pos n with hn | hn
  · simp [hn] at hc
  · rw [List.head?_take] at hc
    · simp [Nat.pos_iff_ne_zero.mp hn] at hc
      unfold stripUnderscores at hc
      set u := m.dropWhile (· == '_') with hu
      set y := (u.reverse.dropWhile (· == '_')).reverse with hy
      have hdec : y ++ (u.reverse.takeWhile (· == '_')).reverse = u :=
        stripTrail_decomp (· == '_') u
      have hyne : y ≠ [] := by
        intro hnil
        rw [hnil] at hc
        simp at hc
      have : u.head? = some c := by
        rw [← hdec, List.head?_append]
        rw [hc]
        rfl
      have := head?_dropWhile_false this
      simpa using this

theorem slugCore_symbol_only (n : Nat) (s : String)
    (h : ∀ c ∈ s.data, isSlugChar (jsToLower c) = false) :
    slugCore n s = "" := by
  unfold slugCore
  have hall : ∀ c ∈ s.data.map jsToLower, isSlugChar c = false := by
    intro c hc
    rcases List.mem_map.mp hc with ⟨a, ha, rfl⟩
    exact h a ha
  have := (collapseAux_all_not_keep hall).2
  unfold collapseRuns
  rcases List.mem_pair.mp this with h2 | h2 <;>
    simp [h2, stripUnderscores, List.dropWhile]

end Js

/-- C4: the slug contract for `toHubspotPropertyName`.  The function is a
total Lean function, hence deterministic, pure and non-throwing.  For every
input string: the 50-capped (simple-property) variant and the 100-capped
(namespaced) variant respect their length caps; every output character is in
`[a-z0-9_]` (in particular nothing uppercase survives); the output never
starts with an underscore and never contains two adjacent underscores (each
run of characters outside `[a-z0-9]` collapsed to a single one, then leading
and trailing underscores stripped, then the cap applied); and an input whose
characters are all outside `[a-z0-9]` even after lowering yields the empty
string (the documented fallback literals are applied by the callers). -/
theorem c4_slug_contract (s : String) :
    (CustomFields.toHubspotPropertyName s).length ≤ 50 ∧
    (Contacts.toHubspotPropertyName s).length ≤ 100 ∧
    (∀ c ∈ (CustomFields.toHubspotPropertyName s).data,
      Js.isSlugChar c = true ∨ c = '_') ∧
    (∀ c ∈ (Contacts.toHubspotPropertyName s).data,
      Js.isSlugChar c = true ∨ c = '_') ∧
    (∀ c ∈ (CustomFields.toHubspotPropertyName s).data, ¬('A' ≤ c ∧ c ≤ 'Z')) ∧
    (∀ c, (CustomFields.toHubspotPropertyName s).data.head? = some c → c ≠ '_') ∧
    (∀ c, (Contacts.toHubspotPropertyName s).data.head? = some c → c ≠ '_') ∧
    List.Chain' (fun a b => ¬(a = '_' ∧ b = '_'))
      (CustomFields.toHubspotPropertyName s).data ∧
    List.Chain' (fun a b => ¬(a = '_' ∧ b = '_'))
      (Contacts.toHubspotPropertyName s).data ∧
    ((∀ c ∈ s.data, Js.isSlugChar (Js.jsToLower c) = false) →
      CustomFields.toHubspotPropertyName s = "" ∧
      Contacts.toHubspotPropertyName s = "") := by
  refine ⟨Js.slugCore_length 50 s, Js.slugCore_length 100 s,
    Js.slugCore_chars 50 s, Js.slugCore_chars 100 s, ?_,
    Js.slugCore_head 50 s, Js.slugCore_head 100 s,
    Js.slugCore_chain 50 s, Js.slugCore_chain 100 s, ?_⟩
  · intro c hc hAZ
    rcases Js.slugCore_chars 50 s c hc with h | h
    · simp only [Js.isSlugChar, decide_eq_true_eq] at h
      rcases h with ⟨h1, h2⟩ | ⟨h1, h2⟩
      · exact absurd (h1.trans hAZ.2) (by decide)
      · exact absurd (hAZ.1.trans h2) (by decide)
    · subst h
      exact absurd hAZ (by decide)
  · intro h
    exact ⟨Js.slugCore_symbol_only 50 s h, Js.slugCore_symbol_only 100 s h⟩

/-- Witness for C4: evaluates the theorem at the concrete input "--Ab 9--",
discharging the symbol-only hypothesis at "!!" via a second application. -/
theorem c4_slug_contract_witness :
    (CustomFields.toHubspotPropertyName "--Ab 9--").length ≤ 50 ∧
    CustomFields.toHubspotPropertyName "!!" = "" :=
  ⟨(c4_slug_contract "--Ab 9--").1,
    ((c4_slug_contract "!!").2.2.2.2.2.2.2.2.2 (by decide)).1⟩

namespace CustomFields

theorem collideValue_end {used : List String} {v : String} (h : v ∉ used) :
    collideValue used v = v := by
  rw [collideValue]
  exact dif_neg h

theorem collideValue_step {used : List String} {v : String} (h : v ∈ used) :
    collideValue used v =
      collideValue used (v ++ "_" ++ toString (used.length + 1)) := by
  nth_rewrite 1 [collideValue]
  rw [dif_pos h]

theorem collideValue_not_mem (used : List String) (v : String) :
    collideValue used v ∉ used := by
  by_cases hmem : v ∈ used
  · rw [collideValue_step hmem]
    exact collideValue_not_mem used (v ++ "_" ++ toString (used.length + 1))
  · rw [collideValue_end hmem]
    exact hmem
termination_by (used.filter (fun u => v.length ≤ u.length)).length
decreasing_by
  have hgrow : v.length < (v ++ "_" ++ toString (used.length + 1)).length := by
    simp only [String.length_append]
    have : 0 < ("_" : String).length := by decide
    omega
  exact Js.filter_length_lt hmem hgrow

theorem buildOptionsGo_labels :
    ∀ (l : List String) (i : Nat) (used : List String),
      (buildOptionsGo l i used).map EnumOption.label = l := by
  intro l
  induction l with
  | nil => intro i used; simp [buildOptionsGo]
  | cons a t ih => intro i used; simp [buildOptionsGo, ih]

theorem buildOptionsGo_values :
    ∀ (l : List String) (i : Nat) (used : List String),
      ((buildOptionsGo l i used).map EnumOption.value).Nodup ∧
      ∀ x ∈ (buildOptionsGo l i used).map EnumOption.value, x ∉ used := by
  intro l
  induction l with
  | nil => intro i used; simp [buildOptionsGo]
  | cons a t ih =>
    intro i used
    simp only [buildOptionsGo, List.map_cons]
    obtain ⟨hnd, hnotin⟩ :=
      ih (i + 1) (used ++ [collideValue used (toHubspotEnumValue a ("option_" ++ toString (i + 1)))])
    constructor
    · refine List.nodup_cons.mpr ⟨?_, hnd⟩
      intro hmem
      have := hnotin _ hmem
      simp at this
    · intro x hx
      rcases List.mem_cons.mp hx with rfl | hx
      · exact collideValue_not_mem used _
      · intro hxu
        exact (hnotin x hx) (by simp [hxu])

end CustomFields

/-- C5: enumeration option collision handling: whenever
`mapGhlFieldToHubspotProperty` produces an options list (i.e. the mapped
data type is an enumeration), the produced option values are pairwise
distinct — a label whose slug collides with an earlier value receives a
numeric suffix — and there is exactly one option per picklist label, in
order. -/
theorem c5_enum_option_collisions (f : CustomFields.GhlField)
    (opts : List CustomFields.EnumOption)
    (h : (CustomFields.mapGhlFieldToHubspotProperty f).options = some opts) :
    (opts.map CustomFields.EnumOption.value).Nodup ∧
    opts.map CustomFields.EnumOption.label = f.picklistOptions.getD [] := by
  have hrw : (CustomFields.mapGhlFieldToHubspotProperty f).options =
      (if (CustomFields.ghlDataTypeToTypeFieldType
            (Js.upperStr (Js.orS f.dataType "TEXT"))).1 = "enumeration"
       then some (CustomFields.buildOptions (f.picklistOptions.getD []))
       else none) := rfl
  rw [hrw] at h
  split at h
  · rw [Option.some_inj] at h
    subst h
    exact ⟨(CustomFields.buildOptionsGo_values _ 0 []).1,
      CustomFields.buildOptionsGo_labels _ 0 []⟩
  · cases h

/-- Witness for C5: a DROPDOWN field with the colliding labels "A b" and
"a_b" (both slugify to "a_b") yields the distinct values "a_b" and
"a_b_2". -/
theorem c5_enum_option_collisions_witness :
    (([⟨"A b", "a_b"⟩, ⟨"a_b", "a_b_2"⟩] :
        List CustomFields.EnumOption).map CustomFields.EnumOption.value).Nodup ∧
    ([⟨"A b", "a_b"⟩, ⟨"a_b", "a_b_2"⟩] :
        List CustomFields.EnumOption).map CustomFields.EnumOption.label =
      (CustomFields.GhlField.mk (some "DROPDOWN") (some "colors") (some "Colors")
        (some ["A b", "a_b"])).picklistOptions.getD [] := by
  have hb : CustomFields.buildOptions ["A b", "a_b"] =
      [⟨"A b", "a_b"⟩, ⟨"a_b", "a_b_2"⟩] := by
    unfold CustomFields.buildOptions
    simp only [CustomFields.buildOptionsGo]
    rw [show CustomFields.toHubspotEnumValue "A b" ("option_" ++ toString (0 + 1)) =
      "a_b" from by decide]
    rw [CustomFields.collideValue_end
      (show ("a_b" : String) ∉ ([] : List String) by decide)]
    simp only [List.nil_append]
    rw [show CustomFields.toHubspotEnumValue "a_b" ("option_" ++ toString (0 + 1 + 1)) =
      "a_b" from by decide]
    rw [CustomFields.collideValue_step
      (show ("a_b" : String) ∈ (["a_b"] : List String) by decide)]
    rw [show ("a_b" ++ "_" ++ toString ((["a_b"] : List String).length + 1) : String) =
      "a_b_2" from by decide]
    rw [CustomFields.collideValue_end
      (show ("a_b_2" : String) ∉ (["a_b"] : List String) by decide)]
  have h : (CustomFields.mapGhlFieldToHubspotProperty
      (CustomFields.GhlField.mk (some "DROPDOWN") (some "colors") (some "Colors")
        (some ["A b", "a_b"]))).options =
      some [⟨"A b", "a_b"⟩, ⟨"a_b", "a_b_2"⟩] := by
    rw [show (CustomFields.mapGhlFieldToHubspotProperty
      (CustomFields.GhlField.mk (some "DROPDOWN") (some "colors") (some "Colors")
        (some ["A b", "a_b"]))).options =
      some (CustomFields.buildOptions ["A b", "a_b"]) from rfl]
    rw [hb]
  exact c5_enum_option_collisions _ _ h

/-- C6 counterexample: `mapGhlFieldToHubspotProperty` applied to a field
whose dataType is CHECKBOX yields type "bool" with fieldType
"booleancheckbox" and no options — not an enumeration with True/False
options as the claim states. -/
theorem c6_checkbox_counterexample :
    (CustomFields.mapGhlFieldToHubspotProperty
      (CustomFields.GhlField.mk (some "CHECKBOX") (some "agrees") (some "Agrees")
        none)).type = "bool" ∧
    (CustomFields.mapGhlFieldToHubspotProperty
      (CustomFields.GhlField.mk (some "CHECKBOX") (some "agrees") (some "Agrees")
        none)).fieldType = "booleancheckbox" ∧
    (CustomFields.mapGhlFieldToHubspotProperty
      (CustomFields.GhlField.mk (some "CHECKBOX") (some "agrees") (some "Agrees")
        none)).options = none ∧
    ¬((CustomFields.mapGhlFieldToHubspotProperty
      (CustomFields.GhlField.mk (some "CHECKBOX") (some "agrees") (some "Agrees")
        none)).type = "enumeration") := by
  decide

/-- C6 amended: the boolean special-case into an enumeration with literal
True/False options lives in `normalizeFieldDefinition` (used by
`createHubspotCustomFieldsOnObjectType`): a field definition whose declared
type lowercases to "boolean" or "bool" and which carries no options is
normalized to type "enumeration", fieldType "booleancheckbox" and options
True/true, False/false.  `mapGhlFieldToHubspotProperty`, by contrast, maps a
CHECKBOX dataType to the pair type "bool" and fieldType "booleancheckbox"
with no options. -/
theorem c6_boolean_special_case :
    (∀ f : CustomFields.GhlField,
      Js.upperStr (Js.orS f.dataType "TEXT") = "CHECKBOX" →
      (CustomFields.mapGhlFieldToHubspotProperty f).type = "bool" ∧
      (CustomFields.mapGhlFieldToHubspotProperty f).fieldType = "booleancheckbox" ∧
      (CustomFields.mapGhlFieldToHubspotProperty f).options = none) ∧
    (∀ (fd : CustomFields.FieldDef) (t : String), fd.type = some t →
      (Js.lowerStr t = "boolean" ∨ Js.lowerStr t = "bool") →
      fd.options = none →
      (CustomFields.normalizeFieldDefinition (.objF fd)).type = "enumeration" ∧
      (CustomFields.normalizeFieldDefinition (.objF fd)).fieldType = "booleancheckbox" ∧
      (CustomFields.normalizeFieldDefinition (.objF fd)).options =
        some [⟨"True", "true"⟩, ⟨"False", "false"⟩]) := by
  constructor
  · intro f hdt
    refine ⟨?_, ?_, ?_⟩
    · calc (CustomFields.mapGhlFieldToHubspotProperty f).type
          = (CustomFields.ghlDataTypeToTypeFieldType
              (Js.upperStr (Js.orS f.dataType "TEXT"))).1 := rfl
        _ = "bool" := by rw [hdt]; decide
    · calc (CustomFields.mapGhlFieldToHubspotProperty f).fieldType
          = (CustomFields.ghlDataTypeToTypeFieldType
              (Js.upperStr (Js.orS f.dataType "TEXT"))).2 := rfl
        _ = "booleancheckbox" := by rw [hdt]; decide
    · calc (CustomFields.mapGhlFieldToHubspotProperty f).options
          = (if (CustomFields.ghlDataTypeToTypeFieldType
                (Js.upperStr (Js.orS f.dataType "TEXT"))).1 = "enumeration"
             then some (CustomFields.buildOptions (f.picklistOptions.getD []))
             else none) := rfl
        _ = none := by rw [hdt]; rw [if_neg (by decide)]
  · intro fd t htype hlow hopts
    have ht : t ≠ "" := by
      intro he
      subst he
      rcases hlow with hlow | hlow <;> exact absurd hlow (by decide)
    have htype1 : (CustomFields.typeAliases (Js.lowerStr t)).getD t = "bool" := by
      rcases hlow with hlow | hlow <;> rw [hlow] <;> rfl
    simp only [CustomFields.normalizeFieldDefinition, htype, hopts, Option.getD_none,
      CustomFields.normalizeOptions, List.filterMap_nil, Js.orS, if_neg ht, htype1]
    refine ⟨?_, ?_, ?_⟩ <;> simp

/-- Witness for C6: the amended theorem applied to the concrete field of the
counterexample (CHECKBOX data type, case-insensitively) and to a concrete
field definition with type "Boolean" and no options. -/
theorem c6_boolean_special_case_witness :
    (CustomFields.mapGhlFieldToHubspotProperty
      (CustomFields.GhlField.mk (some "checkBox") (some "agrees") (some "Agrees")
        none)).type = "bool" ∧
    (CustomFields.normalizeFieldDefinition
      (.objF (CustomFields.FieldDef.mk (some "Agrees") none none (some "Boolean")
        none none))).options = some [⟨"True", "true"⟩, ⟨"False", "false"⟩] :=
  ⟨(c6_boolean_special_case.1
      (CustomFields.GhlField.mk (some "checkBox") (some "agrees") (some "Agrees") none)
      (by decide)).1,
    (c6_boolean_special_case.2
      (CustomFields.FieldDef.mk (some "Agrees") none none (some "Boolean") none none)
      "Boolean" rfl (Or.inl (by decide)) rfl).2.2⟩

namespace Appointments

theorem jsTrim_empty : Js.jsTrim "" = "" := rfl

theorem lowerStr_empty : Js.lowerStr "" = "" := rfl

end Appointments

/-- C9: meeting outcome normalization.  The result depends only on the
trimmed, lowercased key (so the mapping is trim- and case-insensitive); the
four no-show spellings (also with extra whitespace and mixed case) map to
NO_SHOW; the result is always absent or one of the five fixed destination
enumeration values; and any key outside the fixed keyword buckets maps to
absent, so no outcome is ever invented. -/
theorem c9_meeting_outcome_normalization :
    (∀ s₁ s₂ : String, Js.lowerStr (Js.jsTrim s₁) = Js.lowerStr (Js.jsTrim s₂) →
      Appointments.normalizeMeetingOutcome (some s₁) =
        Appointments.normalizeMeetingOutcome (some s₂)) ∧
    (Appointments.normalizeMeetingOutcome (some "no show") = some "NO_SHOW" ∧
     Appointments.normalizeMeetingOutcome (some "noshow") = some "NO_SHOW" ∧
     Appointments.normalizeMeetingOutcome (some "no_show") = some "NO_SHOW" ∧
     Appointments.normalizeMeetingOutcome (some "no-show") = some "NO_SHOW" ∧
     Appointments.normalizeMeetingOutcome (some " No-Show ") = some "NO_SHOW" ∧
     Appointments.normalizeMeetingOutcome (some "NO SHOW") = some "NO_SHOW") ∧
    (∀ v : Option String, Appointments.normalizeMeetingOutcome v = none ∨
      Appointments.normalizeMeetingOutcome v ∈
        [some "COMPLETED", some "NO_SHOW", some "CANCELED", some "RESCHEDULED",
         some "SCHEDULED"]) ∧
    (∀ s : String,
      Js.lowerStr (Js.jsTrim s) ∉ Appointments.meetingOutcomeKeys →
      Appointments.normalizeMeetingOutcome (some s) = none) := by
  refine ⟨?_, by decide, ?_, ?_⟩
  · intro s₁ s₂ heq
    by_cases h1 : s₁ = "" <;> by_cases h2 : s₂ = ""
    · subst h1; subst h2; rfl
    · subst h1
      rw [Appointments.jsTrim_empty, Appointments.lowerStr_empty] at heq
      simp only [Appointments.normalizeMeetingOutcome, if_pos rfl, if_neg h2,
        ← heq]
      simp
    · subst h2
      rw [Appointments.jsTrim_empty, Appointments.lowerStr_empty] at heq
      simp only [Appointments.normalizeMeetingOutcome, if_pos rfl, if_neg h1,
        heq]
      simp
    · simp only [Appointments.normalizeMeetingOutcome, if_neg h1, if_neg h2,
        heq]
  · intro v
    cases v with
    | none => exact Or.inl rfl
    | some s =>
      simp only [Appointments.normalizeMeetingOutcome]
      split_ifs <;> simp
  · intro s h
    by_cases hs : s = ""
    · simp [Appointments.normalizeMeetingOutcome, hs]
    · simp only [Appointments.normalizeMeetingOutcome, if_neg hs]
      split_ifs with h0 hA hB hC hD hE
      · rfl
      all_goals simp_all [Appointments.meetingOutcomeKeys]

/-- Witness for C9: the insensitivity part applied to "No Show" versus
"no show" (their trimmed lowercased keys agree), and the outside-the-buckets
part applied to "whatever". -/
theorem c9_meeting_outcome_normalization_witness :
    Appointments.normalizeMeetingOutcome (some "No Show") =
      Appointments.normalizeMeetingOutcome (some "no show") ∧
    Appointments.normalizeMeetingOutcome (some "whatever") = none :=
  ⟨c9_meeting_outcome_normalization.1 "No Show" "no show" (by decide),
    c9_meeting_outcome_normalization.2.2.2 "whatever" (by decide)⟩

/-- C10 counterexample: the epoch-seconds value 86400 and the
epoch-milliseconds value 86400000 denote the same instant
(1970-01-02T00:00:00Z), yet `toTimestamp` yields 86400000 for the former and
86400000000 for the latter, so the same-instant agreement asserted by the
claim fails for instants before epoch-second 10^9. -/
theorem c10_timestamp_counterexample :
    Appointments.toTimestamp (fun _ => none) (.num 86400) = some 86400000 ∧
    Appointments.toTimestamp (fun _ => none) (.num 86400000) = some 86400000000 ∧
    Appointments.toTimestamp (fun _ => none) (.num 86400) ≠
      Appointments.toTimestamp (fun _ => none) (.num 86400000) := by
  refine ⟨?_, ?_, ?_⟩ <;> decide

/-- C10 amended: `toTimestamp` returns `undefined` for falsy input (absent
or null, the number 0, the empty string) and for strings `Date.parse` cannot
parse; returns `getTime()` for Date instances; multiplies nonzero numbers
strictly below 10^12 by 1000 and returns numbers at or above 10^12
unchanged.  An epoch-seconds value and the epoch-milliseconds value of the
same instant agree exactly when the instant is at or after epoch-second 10^9
(i.e. the milliseconds value is at least 10^12).  The opportunities copy of
`toTimestamp` computes the same function. -/
theorem c10_timestamp_heuristic (parse : String → Option Int) :
    Appointments.toTimestamp parse .undef = none ∧
    Appointments.toTimestamp parse (.num 0) = none ∧
    Appointments.toTimestamp parse (.str "") = none ∧
    (∀ s, parse s = none → Appointments.toTimestamp parse (.str s) = none) ∧
    (∀ s t, s ≠ "" → parse s = some t →
      Appointments.toTimestamp parse (.str s) = some t) ∧
    (∀ ms, Appointments.toTimestamp parse (.date ms) = some ms) ∧
    (∀ n : Int, n ≠ 0 → n < 10 ^ 12 →
      Appointments.toTimestamp parse (.num n) = some (n * 1000)) ∧
    (∀ n : Int, 10 ^ 12 ≤ n → Appointments.toTimestamp parse (.num n) = some n) ∧
    (∀ sec : Int, 10 ^ 9 ≤ sec → sec < 10 ^ 12 →
      Appointments.toTimestamp parse (.num sec) =
        Appointments.toTimestamp parse (.num (sec * 1000))) ∧
    (∀ v, Opps.toTimestamp parse v = Appointments.toTimestamp parse v) := by
  refine ⟨rfl, by simp [Appointments.toTimestamp], rfl, ?_, ?_, fun ms => rfl,
    ?_, ?_, ?_, ?_⟩
  · intro s hp
    by_cases hs : s = ""
    · simp [Appointments.toTimestamp, hs]
    · simp [Appointments.toTimestamp, hs, hp]
  · intro s t hs hp
    simp [Appointments.toTimestamp, hs, hp]
  · intro n hn0 hlt
    norm_num at hlt
    simp [Appointments.toTimestamp, hn0, hlt]
  · intro n hge
    norm_num at hge
    have hn0 : n ≠ 0 := by omega
    have hnlt : ¬(n < 1000000000000) := by omega
    simp [Appointments.toTimestamp, hn0, hnlt]
  · intro sec h9 h12
    norm_num at h9 h12
    have h0 : sec ≠ 0 := by omega
    have hms0 : sec * 1000 ≠ 0 := by omega
    have hmslt : ¬(sec * 1000 < 1000000000000) := by omega
    simp only [Appointments.toTimestamp, if_neg h0, if_neg hms0]
    norm_num
    rw [if_pos h12, if_neg hmslt]
  · intro v
    cases v <;> rfl

/-- Witness for C10: the amended theorem applied at epoch-second 10^9 and
its millisecond form 10^12, and at an unparseable string with the
all-`none` parse. -/
theorem c10_timestamp_heuristic_witness :
    Appointments.toTimestamp (fun _ => none) (.num (10 ^ 9)) =
      Appointments.toTimestamp (fun _ => none) (.num (10 ^ 9 * 1000)) ∧
    Appointments.toTimestamp (fun _ => none) (.str "not a date") = none :=
  ⟨(c10_timestamp_heuristic (fun _ => none)).2.2.2.2.2.2.2.2.1 (10 ^ 9)
      (by decide) (by decide),
    (c10_timestamp_heuristic (fun _ => none)).2.2.2.1 "not a date" rfl⟩

namespace Migration

theorem saveCheckpointIf_some (cp : Option Nat) (n : Nat) :
    saveCheckpointIf cp (some n) = some n := rfl

end Migration

namespace Opps

theorem applyOppCustomField_dealstage (dateIso : JsVal → String)
    (p : DealProperties) (cf : OppCustomField) :
    (applyOppCustomField dateIso p cf).dealstage = p.dealstage := by
  unfold applyOppCustomField
  split_ifs <;> rfl

theorem foldl_applyOppCustomField_dealstage (dateIso : JsVal → String) :
    ∀ (l : List OppCustomField) (p : DealProperties),
      (l.foldl (applyOppCustomField dateIso) p).dealstage = p.dealstage := by
  intro l
  induction l with
  | nil => intro p; rfl
  | cons cf t ih =>
    intro p
    simp only [List.foldl_cons]
    rw [ih, applyOppCustomField_dealstage]

theorem ds_ite {d : Option String} (c : Prop) [Decidable c]
    (A B : DealProperties) (hA : A.dealstage = d) (hB : B.dealstage = d) :
    (if c then A else B).dealstage = d := by
  split_ifs <;> assumption

set_option maxHeartbeats 1000000 in
theorem buildDealProperties_dealstage (parse : String → Option Int)
    (dateIso : JsVal → String) (users : List UserRecord) (o : Opportunity)
    (defaultDealstage defaultPipeline hsTagIds companyApexId : Option String) :
    (buildDealProperties parse dateIso users o defaultDealstage defaultPipeline
      hsTagIds companyApexId).dealstage = defaultDealstage := by
  unfold buildDealProperties
  simp only
  cases toTimestamp parse (jsOrT o.closedAt (jsOrT o.closeDate o.closedOn)) <;>
    simp only <;>
    (cases (normalizePropertyValue (Js.jsValCoalesce o.monetaryValue
        (Js.jsValCoalesce o.amount (Js.jsValCoalesce o.value o.price)))) <;>
      simp only <;>
      (refine ds_ite _ _ _ ?_ ?_ <;>
        (cases findAssignedToUser users o <;> simp only <;>
          (try refine ds_ite _ _ _ ?_ ?_) <;>
          (rw [foldl_applyOppCustomField_dealstage];
            refine ds_ite _ _ _ rfl rfl))))

end Opps

set_option maxHeartbeats 1000000 in
/-- C8: when an opportunity record with a source id and no existing
IdentityMapping is processed with dryRun=false and no dealstage resolves
(the resolved fallback stage is absent — as happens when no default is
configured and the destination has no pipelines, or only pipelines without
stages), the migrator counts skippedMissingStage, upserts a
"missing dealstage" FailureRecord for the record, advances the checkpoint
to the record position, and makes zero destination create calls for it. -/
theorem c8_missing_dealstage_skip (parse : String → Option Int)
    (dateIso : JsVal → String) (users : List UserRecord)
    (fallbackPipeline : Option String) (orc : Opps.OppOracles)
    (s : Opps.OppState) (o : Opportunity)
    (hid : Js.strTruthy o.id = true)
    (hmap : ¬ Js.strTruthy (getMapping s.idMap (o.id.getD "") "opportunity") = true) :
    (Opps.migrateOpportunityStep parse dateIso users false fallbackPipeline none
        orc s o).summary.skippedMissingStage =
      s.summary.skippedMissingStage + 1 ∧
    (FailureRecord.mk "opportunity" (o.id.getD "") "missing dealstage") ∈
      (Opps.migrateOpportunityStep parse dateIso users false fallbackPipeline none
        orc s o).failures ∧
    (Opps.migrateOpportunityStep parse dateIso users false fallbackPipeline none
        orc s o).checkpoint = some o.surrogateId ∧
    (Opps.migrateOpportunityStep parse dateIso users false fallbackPipeline none
        orc s o).createCalls = s.createCalls ∧
    (Opps.getDefaultPipelineAndStage []).2 = none ∧
    (∀ p : Opps.DealPipeline, p.stages = some [] →
      Opps.resolveDefaultStage (some p) = none) := by
  refine ⟨?_, ?_, ?_, ?_, by decide, ?_⟩
  · simp only [Opps.migrateOpportunityStep]
    rw [if_neg (fun hc => hc hid), if_neg hmap,
      Opps.buildDealProperties_dealstage,
      if_pos (show ¬ Js.strTruthy (none : Option String) = true by simp [Js.strTruthy])]
    split_ifs <;> rfl
  · simp only [Opps.migrateOpportunityStep]
    rw [if_neg (fun hc => hc hid), if_neg hmap,
      Opps.buildDealProperties_dealstage,
      if_pos (show ¬ Js.strTruthy (none : Option String) = true by simp [Js.strTruthy])]
    show FailureRecord.mk "opportunity" (o.id.getD "") "missing dealstage" ∈
      Migration.recordFailedMigration _ (some "opportunity") o.id "missing dealstage"
    simp only [Migration.recordFailedMigration]
    rw [if_pos (show (Js.strTruthy (some "opportunity") && Js.strTruthy o.id) = true
      by rw [hid]; decide)]
    exact List.mem_append_right _ (List.mem_singleton_self _)
  · simp only [Opps.migrateOpportunityStep]
    rw [if_neg (fun hc => hc hid), if_neg hmap,
      Opps.buildDealProperties_dealstage,
      if_pos (show ¬ Js.strTruthy (none : Option String) = true by simp [Js.strTruthy])]
    rfl
  · simp only [Opps.migrateOpportunityStep]
    rw [if_neg (fun hc => hc hid), if_neg hmap,
      Opps.buildDealProperties_dealstage,
      if_pos (show ¬ Js.strTruthy (none : Option String) = true by simp [Js.strTruthy])]
    split_ifs <;> rfl
  · intro p hp
    simp [Opps.resolveDefaultStage, hp]

/-- Witness for C8: the theorem applied to a concrete opportunity with id
"o1" in an empty staging state, dryRun=false, no configured dealstage. -/
theorem c8_missing_dealstage_skip_witness :
    (Opps.migrateOpportunityStep (fun _ => none) (fun _ => "") [] false none none
        {} {} { surrogateId := 2, id := some "o1" }).summary.skippedMissingStage =
      (({} : Opps.OppState)).summary.skippedMissingStage + 1 ∧
    (FailureRecord.mk "opportunity" "o1" "missing dealstage") ∈
      (Opps.migrateOpportunityStep (fun _ => none) (fun _ => "") [] false none none
        {} {} { surrogateId := 2, id := some "o1" }).failures :=
  ⟨(c8_missing_dealstage_skip (fun _ => none) (fun _ => "") [] none {} {}
      { surrogateId := 2, id := some "o1" } (by decide) (by decide)).1,
    (c8_missing_dealstage_skip (fun _ => none) (fun _ => "") [] none {} {}
      { surrogateId := 2, id := some "o1" } (by decide) (by decide)).2.1⟩

namespace Js

theorem strTruthy_getD {o : Option String} (h : strTruthy o = true) :
    o = some (o.getD "") ∧ o.getD "" ≠ "" := by
  cases o with
  | none => simp [strTruthy] at h
  | some v =>
    simp only [strTruthy, bne_iff_ne] at h
    exact ⟨rfl, by simpa using h⟩

end Js

namespace Migration

theorem getMapping_setMapping (m : List IdMapEntry) (e : IdMapEntry) :
    getMapping (setMapping m e) e.ghlId e.objectTypeId = some e.hubspotId := by
  induction m with
  | nil => simp [setMapping, getMapping, List.find?]
  | cons x xs ih =>
    by_cases h : (x.ghlId == e.ghlId && x.objectTypeId == e.objectTypeId) = true
    · simp [setMapping, h, getMapping, List.find?]
    · rw [setMapping, if_neg h]
      have hfalse : (x.ghlId == e.ghlId && x.objectTypeId == e.objectTypeId) = false := by
        simpa using h
      simp only [getMapping, List.find?, hfalse] at ih ⊢
      exact ih

end Migration

namespace Appointments

theorem appointment_step_already_mapped (parse : String → Option Int)
    (users : List UserRecord) (oty mty : String) (dryRun : Bool)
    (oracle : Except String (Option String)) (s : AppState) (a : Appointment)
    (hid : Js.strTruthy a.id = true)
    (hmap : Js.strTruthy (getMapping s.idMap (a.id.getD "") mty) = true) :
    migrateAppointmentStep parse users oty mty dryRun oracle s a =
      { s with
        summary := { s.summary with
          processed := s.summary.processed + 1
          skippedAlreadyMapped := s.summary.skippedAlreadyMapped + 1 }
        checkpoint := some a.surrogateId } := by
  simp only [migrateAppointmentStep]
  rw [if_neg (fun hc => hc hid), if_pos hmap]
  rfl

theorem run_all_mapped (parse : String → Option Int)
    (users : List UserRecord) (oty mty : String) (dryRun : Bool)
    (oracle : Appointment → Except String (Option String)) :
    ∀ (records : List Appointment) (s : AppState),
      (∀ a ∈ records, Js.strTruthy a.id = true ∧
        Js.strTruthy (getMapping s.idMap (a.id.getD "") mty) = true) →
      (migrateAppointmentsRun parse users oty mty dryRun oracle s records).createCalls
          = s.createCalls ∧
      (migrateAppointmentsRun parse users oty mty dryRun oracle s records).idMap
          = s.idMap ∧
      (migrateAppointmentsRun parse users oty mty dryRun oracle s
          records).summary.skippedAlreadyMapped
        = s.summary.skippedAlreadyMapped + records.length := by
  intro records
  induction records with
  | nil => intro s _; exact ⟨rfl, rfl, rfl⟩
  | cons a rest ih =>
    intro s h
    have ha := h a (List.mem_cons_self a rest)
    have hstep := appointment_step_already_mapped parse users oty mty dryRun (oracle a) s a
      ha.1 ha.2
    simp only [migrateAppointmentsRun, hstep]
    have hrest := ih { s with
        summary := { s.summary with
          processed := s.summary.processed + 1
          skippedAlreadyMapped := s.summary.skippedAlreadyMapped + 1 }
        checkpoint := some a.surrogateId }
      (fun b hb => h b (List.mem_cons_of_mem a hb))
    refine ⟨hrest.1, hrest.2.1, ?_⟩
    rw [hrest.2.2]
    simp only [List.length_cons]
    omega

theorem step_creates_mapping (parse : String → Option Int)
    (users : List UserRecord) (oty mty : String)
    (s : AppState) (a : Appointment) (h : String)
    (hid : Js.strTruthy a.id = true)
    (hmap : ¬ Js.strTruthy (getMapping s.idMap (a.id.getD "") mty) = true)
    (hmty : mty ≠ "") (hh : h ≠ "") :
    getMapping (migrateAppointmentStep parse users oty mty false (.ok (some h))
        s a).idMap (a.id.getD "") mty = some h := by
  simp only [migrateAppointmentStep]
  rw [if_neg (fun hc => hc hid), if_neg hmap]
  show getMapping (upsertGhlHubspotIdMap s.idMap a.id (some h) (some mty))
    (a.id.getD "") mty = some h
  obtain ⟨hsome, hne⟩ := Js.strTruthy_getD hid
  unfold Migration.upsertGhlHubspotIdMap
  rw [if_pos (show (Js.strTruthy a.id && Js.strTruthy (some h) &&
      Js.strTruthy (some mty)) = true by
    rw [hid]
    simp [Js.strTruthy, hh, hmty])]
  have := Migration.getMapping_setMapping s.idMap ⟨a.id.getD "", mty, h⟩
  simpa using this

end Appointments

namespace Calendars

theorem calendar_step_already_mapped (oty nameProperty : String) (dryRun : Bool)
    (oracle : Except String (Option String)) (s : CalState) (c : Calendar)
    (hid : Js.strTruthy c.id = true)
    (hmap : Js.strTruthy (getMapping s.idMap (c.id.getD "") oty) = true) :
    migrateCalendarStep oty nameProperty dryRun oracle s c =
      { s with
        summary := { s.summary with
          processed := s.summary.processed + 1
          skippedAlreadyMapped := s.summary.skippedAlreadyMapped + 1 }
        checkpoint := some c.surrogateId } := by
  simp only [migrateCalendarStep]
  rw [if_neg (fun hc => hc hid), if_pos hmap]
  rfl

end Calendars

namespace Opps

set_option maxHeartbeats 1000000 in
theorem opportunity_step_already_mapped (parse : String → Option Int)
    (dateIso : JsVal → String) (users : List UserRecord) (dryRun : Bool)
    (fallbackPipeline fallbackStage : Option String) (orc : OppOracles)
    (s : OppState) (o : Opportunity)
    (hid : Js.strTruthy o.id = true)
    (hmap : Js.strTruthy (getMapping s.idMap (o.id.getD "") "opportunity") = true) :
    migrateOpportunityStep parse dateIso users dryRun fallbackPipeline
        fallbackStage orc s o =
      { s with
        summary := { s.summary with
          processed := s.summary.processed + 1
          skippedAlreadyMapped := s.summary.skippedAlreadyMapped + 1 }
        checkpoint := some o.surrogateId } := by
  simp only [migrateOpportunityStep]
  rw [if_neg (fun hc => hc hid), if_pos hmap]
  rfl

end Opps

/-- C1 counterexample: the contacts migrator has no IdentityMapping
pre-check.  A contact record whose id "c1" already has an IdentityMapping
(to destination contact "H9") is processed again with resume=false and
dryRun=false: the step issues a destination contacts create call and a
companion companies create call (two create invocations instead of zero),
overwrites the existing mapping with the new destination id, and its
summary has no skippedAlreadyMapped counter at all. -/
theorem c1_idempotence_counterexample :
    (Contacts.migrateContactStep (fun _ => "") [] false
        { contactCreate := .ok (some "H10"), companyCreate := .ok (some "K1"),
          companyAssoc := .ok () }
        { idMap := [⟨"c1", "contact", "H9"⟩] }
        { surrogateId := 3, id := some "c1",
          email := some "A@B.com" }).createCalls.length = 2 ∧
    (Contacts.migrateContactStep (fun _ => "") [] false
        { contactCreate := .ok (some "H10"), companyCreate := .ok (some "K1"),
          companyAssoc := .ok () }
        { idMap := [⟨"c1", "contact", "H9"⟩] }
        { surrogateId := 3, id := some "c1",
          email := some "A@B.com" }).createCalls.map Contacts.ObjCreate.objectType
      = ["contacts", "companies"] ∧
    getMapping (Contacts.migrateContactStep (fun _ => "") [] false
        { contactCreate := .ok (some "H10"), companyCreate := .ok (some "K1"),
          companyAssoc := .ok () }
        { idMap := [⟨"c1", "contact", "H9"⟩] }
        { surrogateId := 3, id := some "c1",
          email := some "A@B.com" }).idMap "c1" "contact" = some "H10" := by
  refine ⟨?_, ?_, ?_⟩ <;> decide

/-- C1 amended: the IdentityMapping pre-check idempotence guarantee holds
for the appointments, calendars and opportunities migrators: a cursor
record whose (sourceId, thisObjectType) already has an IdentityMapping is
counted as skippedAlreadyMapped and never reaches the destination create
call, and a whole run over an already-fully-mapped unchanged source set
makes zero destination create calls with every record counted as
skippedAlreadyMapped; moreover a successful non-dry create writes the
IdentityMapping that makes the next run skip the record.  The contacts
migrator, by contrast, has no pre-check (see the counterexample). -/
theorem c1_idempotence_amended :
    (∀ (parse : String → Option Int) (users : List UserRecord) (oty mty : String)
      (dryRun : Bool) (oracle : Except String (Option String))
      (s : Appointments.AppState) (a : Appointment),
      Js.strTruthy a.id = true →
      Js.strTruthy (getMapping s.idMap (a.id.getD "") mty) = true →
      (Appointments.migrateAppointmentStep parse users oty mty dryRun oracle
          s a).createCalls = s.createCalls ∧
      (Appointments.migrateAppointmentStep parse users oty mty dryRun oracle
          s a).idMap = s.idMap ∧
      (Appointments.migrateAppointmentStep parse users oty mty dryRun oracle
          s a).summary.skippedAlreadyMapped
        = s.summary.skippedAlreadyMapped + 1 ∧
      (Appointments.migrateAppointmentStep parse users oty mty dryRun oracle
          s a).checkpoint = some a.surrogateId) ∧
    (∀ (oty nameProperty : String) (dryRun : Bool)
      (oracle : Except String (Option String)) (s : Calendars.CalState)
      (c : Calendar),
      Js.strTruthy c.id = true →
      Js.strTruthy (getMapping s.idMap (c.id.getD "") oty) = true →
      (Calendars.migrateCalendarStep oty nameProperty dryRun oracle
          s c).createCalls = s.createCalls ∧
      (Calendars.migrateCalendarStep oty nameProperty dryRun oracle
          s c).summary.skippedAlreadyMapped
        = s.summary.skippedAlreadyMapped + 1 ∧
      (Calendars.migrateCalendarStep oty nameProperty dryRun oracle
          s c).checkpoint = some c.surrogateId) ∧
    (∀ (parse : String → Option Int) (dateIso : JsVal → String)
      (users : List UserRecord) (dryRun : Bool)
      (fallbackPipeline fallbackStage : Option String) (orc : Opps.OppOracles)
      (s : Opps.OppState) (o : Opportunity),
      Js.strTruthy o.id = true →
      Js.strTruthy (getMapping s.idMap (o.id.getD "") "opportunity") = true →
      (Opps.migrateOpportunityStep parse dateIso users dryRun fallbackPipeline
          fallbackStage orc s o).createCalls = s.createCalls ∧
      (Opps.migrateOpportunityStep parse dateIso users dryRun fallbackPipeline
          fallbackStage orc s o).summary.skippedAlreadyMapped
        = s.summary.skippedAlreadyMapped + 1 ∧
      (Opps.migrateOpportunityStep parse dateIso users dryRun fallbackPipeline
          fallbackStage orc s o).checkpoint = some o.surrogateId) ∧
    (∀ (parse : String → Option Int) (users : List UserRecord) (oty mty : String)
      (dryRun : Bool) (oracle : Appointment → Except String (Option String))
      (records : List Appointment) (s : Appointments.AppState),
      (∀ a ∈ records, Js.strTruthy a.id = true ∧
        Js.strTruthy (getMapping s.idMap (a.id.getD "") mty) = true) →
      (Appointments.migrateAppointmentsRun parse users oty mty dryRun oracle
          s records).createCalls = s.createCalls ∧
      (Appointments.migrateAppointmentsRun parse users oty mty dryRun oracle
          s records).summary.skippedAlreadyMapped
        = s.summary.skippedAlreadyMapped + records.length) ∧
    (∀ (parse : String → Option Int) (users : List UserRecord) (oty mty : String)
      (s : Appointments.AppState) (a : Appointment) (h : String),
      Js.strTruthy a.id = true →
      ¬ Js.strTruthy (getMapping s.idMap (a.id.getD "") mty) = true →
      mty ≠ "" → h ≠ "" →
      getMapping (Appointments.migrateAppointmentStep parse users oty mty false
          (.ok (some h)) s a).idMap (a.id.getD "") mty = some h) := by
  refine ⟨?_, ?_, ?_, ?_, ?_⟩
  · intro parse users oty mty dryRun oracle s a hid hmap
    rw [Appointments.appointment_step_already_mapped parse users oty mty dryRun oracle s a
      hid hmap]
    exact ⟨rfl, rfl, rfl, rfl⟩
  · intro oty nameProperty dryRun oracle s c hid hmap
    rw [Calendars.calendar_step_already_mapped oty nameProperty dryRun oracle s c hid hmap]
    exact ⟨rfl, rfl, rfl⟩
  · intro parse dateIso users dryRun fp fs orc s o hid hmap
    rw [Opps.opportunity_step_already_mapped parse dateIso users dryRun fp fs orc s o hid hmap]
    exact ⟨rfl, rfl, rfl⟩
  · intro parse users oty mty dryRun oracle records s h
    have := Appointments.run_all_mapped parse users oty mty dryRun oracle records s h
    exact ⟨this.1, this.2.2⟩
  · intro parse users oty mty s a h hid hmap hmty hh
    exact Appointments.step_creates_mapping parse users oty mty s a h hid hmap
      hmty hh

/-- Witness for C1: the amended theorem applied to a concrete appointment
"a1" already mapped to "M1" (the step skips it and makes no create call), to
a singleton run over that record, and to the mapping-writing conclusion for
an unmapped appointment "a2". -/
theorem c1_idempotence_amended_witness :
    (Appointments.migrateAppointmentStep (fun _ => none) [] "meetings" "meeting"
        false (.ok none) { idMap := [⟨"a1", "meeting", "M1"⟩] }
        { surrogateId := 4, id := some "a1" }).createCalls = [] ∧
    (Appointments.migrateAppointmentsRun (fun _ => none) [] "meetings" "meeting"
        false (fun _ => .ok none) { idMap := [⟨"a1", "meeting", "M1"⟩] }
        [{ surrogateId := 4, id := some "a1" }]).summary.skippedAlreadyMapped = 1 ∧
    getMapping (Appointments.migrateAppointmentStep (fun _ => none) []
        "meetings" "meeting" false (.ok (some "M2")) {}
        { surrogateId := 5, id := some "a2" }).idMap "a2" "meeting" = some "M2" :=
  ⟨(c1_idempotence_amended.1 (fun _ => none) [] "meetings" "meeting" false
      (.ok none) { idMap := [⟨"a1", "meeting", "M1"⟩] }
      { surrogateId := 4, id := some "a1" } (by decide) (by decide)).1,
    (c1_idempotence_amended.2.2.2.1 (fun _ => none) [] "meetings" "meeting" false
      (fun _ => .ok none) [{ surrogateId := 4, id := some "a1" }]
      { idMap := [⟨"a1", "meeting", "M1"⟩] }
      (by intro a ha; simp at ha; subst ha; exact ⟨by decide, by decide⟩)).2,
    c1_idempotence_amended.2.2.2.2 (fun _ => none) [] "meetings" "meeting" {}
      { surrogateId := 5, id := some "a2" } "M2" (by decide) (by decide)
      (by decide) (by decide)⟩

/-- C2 counterexample: the conversations migrator does not resume strictly
after the compound checkpoint position.  With checkpoint
(lastConversationId = 7, lastMessageId = "mA"), the resume query selects
conversation 7 itself (`$gte`, not `$gt`), the message start index is the
index OF message "mA" (findIndex without + 1), and the resumed run issues a
destination create call for the already-completed message "mA" again. -/
theorem c2_resume_counterexample :
    Convs.conversationsQuery true (some (7, some "mA"))
        [{ surrogateId := 7, contactId := some "c1",
           messages := some [some { id := some "mA",
                                    messageType := some "TYPE_SMS" },
                             some { id := some "mB",
                                    messageType := some "TYPE_SMS" }] }]
      = [{ surrogateId := 7, contactId := some "c1",
           messages := some [some { id := some "mA",
                                    messageType := some "TYPE_SMS" },
                             some { id := some "mB",
                                    messageType := some "TYPE_SMS" }] }] ∧
    Convs.convStartIndex
        { surrogateId := 7, contactId := some "c1",
          messages := some [some { id := some "mA",
                                   messageType := some "TYPE_SMS" },
                            some { id := some "mB",
                                   messageType := some "TYPE_SMS" }] }
        (some 7) (some "mA") = 0 ∧
    (Convs.migrateConversationsRun false (fun _ => .ok (some "N1"))
        (some 7) (some "mA") { idMap := [⟨"c1", "contact", "H1"⟩] }
        (Convs.conversationsQuery true (some (7, some "mA"))
          [{ surrogateId := 7, contactId := some "c1",
             messages := some [some { id := some "mA",
                                      messageType := some "TYPE_SMS" },
                               some { id := some "mB",
                                      messageType := some "TYPE_SMS" }] }])
      ).createCalls.map Convs.ConvCreate.messageId
      = [some "mA", some "mB"] := by
  refine ⟨?_, ?_, ?_⟩ <;> decide

/-- C2 amended: the appointments, calendars and opportunities cursors with
resume=true and a checkpoint select exactly the id-bearing records with
surrogate key strictly greater than the stored lastId, and scan the full
id-bearing set when resume=false; the contacts cursor uses the same strict
bound with no id filter, and the notes cursor the same strict bound on top
of its contactId/opportunityId/relations base filter.  The conversations
migrator instead selects conversations with surrogate key greater than OR
EQUAL to the checkpointed conversation id, and inside the checkpointed
conversation starts at the index of the checkpointed message itself
(findIndex without + 1), so that message is re-processed. -/
theorem c2_resume_scan_start :
    (∀ (lastId : Nat) (records : List Appointment) (r : Appointment),
      r ∈ Appointments.appointmentsQuery true (some lastId) records ↔
        r ∈ records ∧ r.id.isSome = true ∧ lastId < r.surrogateId) ∧
    (∀ (cp : Option Nat) (records : List Appointment),
      Appointments.appointmentsQuery false cp records
        = records.filter (fun r => r.id.isSome)) ∧
    (∀ (lastId : Nat) (records : List Calendar) (r : Calendar),
      r ∈ Calendars.calendarsQuery true (some lastId) records ↔
        r ∈ records ∧ r.id.isSome = true ∧ lastId < r.surrogateId) ∧
    (∀ (lastId : Nat) (records : List Opportunity) (r : Opportunity),
      r ∈ Opps.opportunitiesQuery true (some lastId) records ↔
        r ∈ records ∧ r.id.isSome = true ∧ lastId < r.surrogateId) ∧
    (∀ (lastId : Nat) (records : List ContactRecord) (r : ContactRecord),
      r ∈ Contacts.contactsQuery true (some lastId) records ↔
        r ∈ records ∧ lastId < r.surrogateId) ∧
    (∀ (cp : Option Nat) (records : List ContactRecord),
      Contacts.contactsQuery false cp records = records) ∧
    (∀ (lastId : Nat) (records : List NoteRecord) (r : NoteRecord),
      r ∈ Notes.notesQuery true (some lastId) records ↔
        r ∈ records ∧ Notes.noteBaseMatch r = true ∧ lastId < r.surrogateId) ∧
    (∀ (cp : Option Nat) (records : List NoteRecord),
      Notes.notesQuery false cp records
        = records.filter (fun r => Notes.noteBaseMatch r)) ∧
    (∀ (cid : Nat) (mid : Option String) (convs : List Conversation)
      (c : Conversation), c ∈ convs → c.surrogateId = cid →
      c ∈ Convs.conversationsQuery true (some (cid, mid)) convs) ∧
    (∀ (conv : Conversation) (mid : Option String)
      (msgs : List (Option Message)) (i : Nat),
      conv.messages = some msgs → Js.strTruthy mid = true →
      msgs.findIdx? (fun msg? =>
        (match msg? with | some m => m.id | none => none) == mid) = some i →
      Convs.convStartIndex conv (some conv.surrogateId) mid = i) := by
  refine ⟨?_, ?_, ?_, ?_, ?_, ?_, ?_, ?_, ?_, ?_⟩
  · intro lastId records r
    simp [Appointments.appointmentsQuery, List.mem_filter, and_assoc]
  · intro cp records
    simp [Appointments.appointmentsQuery]
  · intro lastId records r
    simp [Calendars.calendarsQuery, List.mem_filter, and_assoc]
  · intro lastId records r
    simp [Opps.opportunitiesQuery, List.mem_filter, and_assoc]
  · intro lastId records r
    simp [Contacts.contactsQuery, List.mem_filter]
  · intro cp records
    rfl
  · intro lastId records r
    simp [Notes.notesQuery, List.mem_filter, and_assoc]
  · intro cp records
    simp [Notes.notesQuery]
  · intro cid mid convs c hc hcid
    simp only [Convs.conversationsQuery, List.mem_filter]
    exact ⟨hc, by simp [hcid]⟩
  · intro conv mid msgs i hmsgs hmid hfind
    simp [Convs.convStartIndex, hmsgs, hmid, Convs.jsFindIndex, hfind]

/-- Witness for C2: the amended theorem applied at concrete inputs — an
appointment with surrogate key 4 is selected when resuming from lastId 3,
a contact-bearing note with surrogate key 5 is selected when resuming from
lastId 3, the checkpointed conversation 7 is selected by its own resume
query, and the message start index lands on the checkpointed message
itself. -/
theorem c2_resume_scan_start_witness :
    ({ surrogateId := 4, id := some "a4" } : Appointment)
      ∈ Appointments.appointmentsQuery true (some 3)
        [{ surrogateId := 4, id := some "a4" }] ∧
    ({ surrogateId := 5, contactId := some "c5" } : NoteRecord)
      ∈ Notes.notesQuery true (some 3)
        [{ surrogateId := 5, contactId := some "c5" }] ∧
    ({ surrogateId := 7 } : Conversation)
      ∈ Convs.conversationsQuery true (some (7, some "mA"))
        [{ surrogateId := 7 }] ∧
    Convs.convStartIndex
        { surrogateId := 7, messages := some [some { id := some "mA" }] }
        (some 7) (some "mA") = 0 :=
  ⟨(c2_resume_scan_start.1 3 [{ surrogateId := 4, id := some "a4" }]
      { surrogateId := 4, id := some "a4" }).mpr
      ⟨by simp, by decide, by decide⟩,
    (c2_resume_scan_start.2.2.2.2.2.2.1 3
      [{ surrogateId := 5, contactId := some "c5" }]
      { surrogateId := 5, contactId := some "c5" }).mpr
      ⟨by simp, by decide, by decide⟩,
    c2_resume_scan_start.2.2.2.2.2.2.2.2.1 7 (some "mA")
      [{ surrogateId := 7 }] { surrogateId := 7 } (by simp) rfl,
    c2_resume_scan_start.2.2.2.2.2.2.2.2.2
      { surrogateId := 7, messages := some [some { id := some "mA" }] }
      (some "mA") [some { id := some "mA" }] 0 rfl (by decide) (by decide)⟩

namespace Appointments

theorem appointment_step_checkpoint (parse : String → Option Int) (users : List UserRecord)
    (oty mty : String) (dryRun : Bool) (oracle : Except String (Option String))
    (s : AppState) (a : Appointment) :
    (migrateAppointmentStep parse users oty mty dryRun oracle s a).checkpoint
      = some a.surrogateId := by
  simp only [migrateAppointmentStep]
  repeat first | rfl | split

end Appointments

namespace Calendars

theorem calendar_step_checkpoint (oty nameProperty : String) (dryRun : Bool)
    (oracle : Except String (Option String)) (s : CalState) (c : Calendar) :
    (migrateCalendarStep oty nameProperty dryRun oracle s c).checkpoint
      = some c.surrogateId := by
  simp only [migrateCalendarStep]
  repeat first | rfl | split

end Calendars

namespace Opps

theorem checkpoint_of_ite {c : Prop} [Decidable c] {a b : OppState}
    {r : Option Nat} (ha : a.checkpoint = r) (hb : b.checkpoint = r) :
    (if c then a else b).checkpoint = r := by
  by_cases h : c
  · rwa [if_pos h]
  · rwa [if_neg h]

set_option maxHeartbeats 8000000 in
theorem opportunity_step_checkpoint (parse : String → Option Int) (dateIso : JsVal → String)
    (users : List UserRecord) (dryRun : Bool)
    (fallbackPipeline fallbackStage : Option String) (orc : OppOracles)
    (s : OppState) (o : Opportunity) :
    (migrateOpportunityStep parse dateIso users dryRun fallbackPipeline
        fallbackStage orc s o).checkpoint = some o.surrogateId := by
  obtain ⟨tags, prim, apex, create, ac, asc⟩ := orc
  simp only [migrateOpportunityStep]
  refine checkpoint_of_ite rfl (checkpoint_of_ite rfl (checkpoint_of_ite rfl
    (checkpoint_of_ite rfl ?_)))
  cases create with
  | error msg => exact rfl
  | ok respId =>
    refine checkpoint_of_ite ?_ rfl
    repeat first | rfl | split

end Opps

namespace Contacts

theorem contact_step_checkpoint (dateIso : JsVal → String) (users : List UserRecord)
    (dryRun : Bool) (orc : ContactOracles) (s : CtState) (c : ContactRecord) :
    (migrateContactStep dateIso users dryRun orc s c).checkpoint
      = some c.surrogateId := by
  simp only [migrateContactStep]
  repeat first | rfl | split

end Contacts

namespace Convs

theorem messageStep_skip_nonsms (dryRun : Bool)
    (oracle : Message → Except String (Option String)) (ctx : ConvCtx)
    (s : ConvState) (m : Message)
    (h : (isOpportunityActivityMessage m || isAppointmentActivityMessage m
      || isContactActivityMessage m || isInternalCommentMessage m
      || isSmsMessage m || isEmailMessage m || isCallMessage m) = false) :
    (convMessageStep dryRun oracle ctx s (some m)).checkpoint = s.checkpoint ∧
    (convMessageStep dryRun oracle ctx s (some m)).summary.skippedNonSms
      = s.summary.skippedNonSms + 1 := by
  simp only [convMessageStep]
  rw [if_pos]
  · exact ⟨rfl, rfl⟩
  · simp only [Bool.or_assoc] at h ⊢
    simp [h]

theorem messageStep_skip_missing_mappings (dryRun : Bool)
    (oracle : Message → Except String (Option String)) (ctx : ConvCtx)
    (s : ConvState) (m : Message)
    (h : (isOpportunityActivityMessage m || isAppointmentActivityMessage m
      || isContactActivityMessage m || isInternalCommentMessage m
      || isSmsMessage m || isEmailMessage m || isCallMessage m) = true)
    (hmap : ctx.hubspotContactId = none ∧ ctx.hubspotDealId = none) :
    (convMessageStep dryRun oracle ctx s (some m)).checkpoint = s.checkpoint ∧
    (convMessageStep dryRun oracle ctx s
        (some m)).summary.skippedMissingMappings
      = s.summary.skippedMissingMappings + 1 := by
  simp only [convMessageStep]
  rw [if_neg (fun hc => hc h), if_pos hmap]
  exact ⟨rfl, rfl⟩

theorem messageStep_advance (dryRun : Bool)
    (oracle : Message → Except String (Option String)) (ctx : ConvCtx)
    (s : ConvState) (m : Message) (cid : Nat)
    (h : (isOpportunityActivityMessage m || isAppointmentActivityMessage m
      || isContactActivityMessage m || isInternalCommentMessage m
      || isSmsMessage m || isEmailMessage m || isCallMessage m) = true)
    (hmap : ¬ (ctx.hubspotContactId = none ∧ ctx.hubspotDealId = none))
    (hcid : ctx.conversationId = some cid) :
    (convMessageStep dryRun oracle ctx s (some m)).checkpoint
      = some (cid, truthyOrNull m.id) := by
  simp only [convMessageStep]
  rw [if_neg (fun hc => hc h), if_neg hmap, hcid]

theorem messageStep_null (dryRun : Bool)
    (oracle : Message → Except String (Option String)) (ctx : ConvCtx)
    (s : ConvState) :
    convMessageStep dryRun oracle ctx s none = s := rfl

end Convs

/-- C3 counterexample: the conversations migrator does not advance the
checkpoint on its two skip branches.  A WhatsApp message (classified by
none of the sms/email/call/activity classifiers) is counted as
skippedNonSms and leaves the checkpoint at the previous position
(7, "m0"); an SMS message in a conversation with neither a contact nor a
deal mapping is counted as skippedMissingMappings and likewise leaves the
checkpoint untouched. -/
theorem c3_checkpoint_counterexample :
    (Convs.convMessageStep false (fun _ => .ok (some "N1"))
        ⟨some 9, some "H1", none⟩ { checkpoint := some (7, some "m0") }
        (some { id := some "mW",
                messageType := some "TYPE_WHATSAPP" })).checkpoint
      = some (7, some "m0") ∧
    (Convs.convMessageStep false (fun _ => .ok (some "N1"))
        ⟨some 9, some "H1", none⟩ { checkpoint := some (7, some "m0") }
        (some { id := some "mW",
                messageType := some "TYPE_WHATSAPP" })).summary.skippedNonSms
      = 1 ∧
    (Convs.convMessageStep false (fun _ => .ok (some "N1"))
        ⟨some 9, none, none⟩ { checkpoint := some (7, some "m0") }
        (some { id := some "m1",
                messageType := some "TYPE_SMS" })).checkpoint
      = some (7, some "m0") ∧
    (Convs.convMessageStep false (fun _ => .ok (some "N1"))
        ⟨some 9, none, none⟩ { checkpoint := some (7, some "m0") }
        (some { id := some "m1",
                messageType := some "TYPE_SMS" })).summary.skippedMissingMappings
      = 1 := by
  refine ⟨?_, ?_, ?_, ?_⟩ <;> decide

namespace Notes

theorem nt_checkpoint_of_ite {c : Prop} [Decidable c] {a b : NtState}
    {r : Option Nat} (ha : a.checkpoint = r) (hb : b.checkpoint = r) :
    (if c then a else b).checkpoint = r := by
  by_cases h : c
  · rwa [if_pos h]
  · rwa [if_neg h]

theorem note_step_checkpoint (dateParse : String → Option Int) (now : Int)
    (includePlainText : Bool) (fetch : String → Option ApptLookup)
    (dryRun : Bool) (oracle : Except String Unit) (s : NtState)
    (n : NoteRecord) :
    (migrateNoteStep dateParse now includePlainText fetch dryRun oracle
        s n).checkpoint = some n.surrogateId := by
  simp only [migrateNoteStep]
  refine nt_checkpoint_of_ite rfl (nt_checkpoint_of_ite rfl ?_)
  cases hbp : buildNoteProperties dateParse now includePlainText n with
  | none => exact rfl
  | some properties =>
    refine nt_checkpoint_of_ite rfl ?_
    cases oracle <;> rfl

end Notes

/-- C3 amended: the appointments, calendars, opportunities, contacts and
notes migrators save the checkpoint at the processed record's surrogate
position in every outcome branch (success, skip — including the notes-only
missing-body skip — dry-run, failure).  In the conversations migrator a
created or failed message advances the compound checkpoint to
(conversationId, messageId || null), but the two skip branches
(non-classifiable message, missing contact and deal mappings) continue
without saving, leaving the checkpoint unchanged. -/
theorem c3_checkpoint_advance :
    (∀ (parse : String → Option Int) (users : List UserRecord) (oty mty : String)
      (dryRun : Bool) (oracle : Except String (Option String))
      (s : Appointments.AppState) (a : Appointment),
      (Appointments.migrateAppointmentStep parse users oty mty dryRun oracle
          s a).checkpoint = some a.surrogateId) ∧
    (∀ (oty nameProperty : String) (dryRun : Bool)
      (oracle : Except String (Option String)) (s : Calendars.CalState)
      (c : Calendar),
      (Calendars.migrateCalendarStep oty nameProperty dryRun oracle
          s c).checkpoint = some c.surrogateId) ∧
    (∀ (parse : String → Option Int) (dateIso : JsVal → String)
      (users : List UserRecord) (dryRun : Bool)
      (fallbackPipeline fallbackStage : Option String) (orc : Opps.OppOracles)
      (s : Opps.OppState) (o : Opportunity),
      (Opps.migrateOpportunityStep parse dateIso users dryRun fallbackPipeline
          fallbackStage orc s o).checkpoint = some o.surrogateId) ∧
    (∀ (dateIso : JsVal → String) (users : List UserRecord) (dryRun : Bool)
      (orc : Contacts.ContactOracles) (s : Contacts.CtState)
      (c : ContactRecord),
      (Contacts.migrateContactStep dateIso users dryRun orc s c).checkpoint
        = some c.surrogateId) ∧
    (∀ (dateParse : String → Option Int) (now : Int) (includePlainText : Bool)
      (fetch : String → Option Notes.ApptLookup) (dryRun : Bool)
      (oracle : Except String Unit) (s : Notes.NtState) (n : NoteRecord),
      (Notes.migrateNoteStep dateParse now includePlainText fetch dryRun
          oracle s n).checkpoint = some n.surrogateId) ∧
    (∀ (dryRun : Bool) (oracle : Message → Except String (Option String))
      (ctx : Convs.ConvCtx) (s : Convs.ConvState) (m : Message) (cid : Nat),
      (Convs.isOpportunityActivityMessage m
        || Convs.isAppointmentActivityMessage m
        || Convs.isContactActivityMessage m
        || Convs.isInternalCommentMessage m || Convs.isSmsMessage m
        || Convs.isEmailMessage m || Convs.isCallMessage m) = true →
      ¬ (ctx.hubspotContactId = none ∧ ctx.hubspotDealId = none) →
      ctx.conversationId = some cid →
      (Convs.convMessageStep dryRun oracle ctx s (some m)).checkpoint
        = some (cid, Convs.truthyOrNull m.id)) ∧
    (∀ (dryRun : Bool) (oracle : Message → Except String (Option String))
      (ctx : Convs.ConvCtx) (s : Convs.ConvState) (m : Message),
      (Convs.isOpportunityActivityMessage m
        || Convs.isAppointmentActivityMessage m
        || Convs.isContactActivityMessage m
        || Convs.isInternalCommentMessage m || Convs.isSmsMessage m
        || Convs.isEmailMessage m || Convs.isCallMessage m) = false →
      (Convs.convMessageStep dryRun oracle ctx s (some m)).checkpoint
        = s.checkpoint) ∧
    (∀ (dryRun : Bool) (oracle : Message → Except String (Option String))
      (ctx : Convs.ConvCtx) (s : Convs.ConvState) (m : Message),
      (Convs.isOpportunityActivityMessage m
        || Convs.isAppointmentActivityMessage m
        || Convs.isContactActivityMessage m
        || Convs.isInternalCommentMessage m || Convs.isSmsMessage m
        || Convs.isEmailMessage m || Convs.isCallMessage m) = true →
      ctx.hubspotContactId = none ∧ ctx.hubspotDealId = none →
      (Convs.convMessageStep dryRun oracle ctx s (some m)).checkpoint
        = s.checkpoint) := by
  refine ⟨Appointments.appointment_step_checkpoint,
    Calendars.calendar_step_checkpoint, Opps.opportunity_step_checkpoint,
    Contacts.contact_step_checkpoint, Notes.note_step_checkpoint,
    ?_, ?_, ?_⟩
  · intro dryRun oracle ctx s m cid h hmap hcid
    exact Convs.messageStep_advance dryRun oracle ctx s m cid h hmap hcid
  · intro dryRun oracle ctx s m h
    exact (Convs.messageStep_skip_nonsms dryRun oracle ctx s m h).1
  · intro dryRun oracle ctx s m h hmap
    exact (Convs.messageStep_skip_missing_mappings dryRun oracle ctx s m h
      hmap).1

/-- Witness for C3: the amended theorem applied at concrete inputs — an
appointment failure branch still checkpoints its surrogate id 11, a
contact with no source id checkpoints surrogate id 12, a note that lands
in the missing-body skip branch (mapped contact, no body:
skippedMissingBody becomes 1) still checkpoints its surrogate id 13, and
a created SMS message advances the compound checkpoint to (9, "m1"). -/
theorem c3_checkpoint_advance_witness :
    (Appointments.migrateAppointmentStep (fun _ => none) [] "meetings"
        "meeting" false (.error "boom") {}
        { surrogateId := 11, id := some "a1" }).checkpoint = some 11 ∧
    (Contacts.migrateContactStep (fun _ => "") [] false {} {}
        { surrogateId := 12 }).checkpoint = some 12 ∧
    (Notes.migrateNoteStep (fun _ => none) 0 false (fun _ => none) false
        (.ok ()) { idMap := [⟨"c1", "contact", "H1"⟩] }
        { surrogateId := 13, contactId := some "c1" }).checkpoint
      = some 13 ∧
    (Notes.migrateNoteStep (fun _ => none) 0 false (fun _ => none) false
        (.ok ()) { idMap := [⟨"c1", "contact", "H1"⟩] }
        { surrogateId := 13,
          contactId := some "c1" }).summary.skippedMissingBody = 1 ∧
    (Convs.convMessageStep false (fun _ => .ok (some "N1"))
        ⟨some 9, some "H1", none⟩ {}
        (some { id := some "m1",
                messageType := some "TYPE_SMS" })).checkpoint
      = some (9, some "m1") :=
  ⟨c3_checkpoint_advance.1 (fun _ => none) [] "meetings" "meeting" false
      (.error "boom") {} { surrogateId := 11, id := some "a1" },
    c3_checkpoint_advance.2.2.2.1 (fun _ => "") [] false {} {}
      { surrogateId := 12 },
    c3_checkpoint_advance.2.2.2.2.1 (fun _ => none) 0 false (fun _ => none)
      false (.ok ()) { idMap := [⟨"c1", "contact", "H1"⟩] }
      { surrogateId := 13, contactId := some "c1" },
    by decide,
    c3_checkpoint_advance.2.2.2.2.2.1 false (fun _ => .ok (some "N1"))
      ⟨some 9, some "H1", none⟩ {}
      { id := some "m1", messageType := some "TYPE_SMS" } 9 (by decide)
      (by decide) rfl⟩

namespace Contacts

theorem base_missing_email (dateIso : JsVal → String) (users : List UserRecord)
    (cc kc : Except String (Option String)) (ka : Except String Unit)
    (db : CtDb) (g : ContactRecord) (hmail : Js.strTruthy g.email = false) :
    createBaseHubspotContact dateIso users false cc kc ka db g
      = ({ db with failures := (recordFailedMigration db.failures
            (some "contact") g.id "missing email") },
         .error ("email is required to create a HubSpot contact ghlContact="
           ++ Js.jsonStringifyOptStr g.id)) := by
  have hm : ¬ Js.strTruthy g.email = true := by simp [hmail]
  simp only [createBaseHubspotContact]
  rw [if_pos hm]

theorem step_missing_email (dateIso : JsVal → String) (users : List UserRecord)
    (orc : ContactOracles) (s : CtState) (g : ContactRecord)
    (hmail : Js.strTruthy g.email = false) :
    migrateContactStep dateIso users false orc s g
      = { idMap := s.idMap,
          checkpoint := some g.surrogateId,
          failures := recordFailedMigration
            (recordFailedMigration s.failures (some "contact") g.id
              "missing email")
            (some "contact") (coalesce g.id (some (toString g.surrogateId)))
            ("migration error: "
              ++ ("email is required to create a HubSpot contact ghlContact="
                ++ Js.jsonStringifyOptStr g.id)),
          createCalls := s.createCalls,
          summary := { s.summary with failed := s.summary.failed + 1 } } := by
  simp only [migrateContactStep]
  rw [if_neg (show ¬ (false = true) from Bool.false_ne_true)]
  rw [base_missing_email dateIso users orc.contactCreate orc.companyCreate
    orc.companyAssoc ⟨s.idMap, s.failures, s.createCalls⟩ g hmail]

end Contacts

/-- C7 counterexample: a contact record with neither email nor source id is
failed with reason "migration error: email is required to create a HubSpot
contact ghlContact=undefined" keyed by its surrogate id — no FailureRecord
with reason "missing email" is ever written for it, because
recordFailedMigration drops the write when the source id is falsy.  For a
record that does have a source id, the "missing email" upsert is followed
by a second upsert under the same (entityType, ghlId) key with the
"migration error: ..." reason, which overwrites it in the keyed
collection. -/
theorem c7_missing_email_counterexample :
    (Contacts.migrateContactStep (fun _ => "") [] false {} {}
        { surrogateId := 7 }).failures
      = [⟨"contact", "7",
          "migration error: email is required to create a HubSpot contact ghlContact=undefined"⟩] ∧
    (Contacts.migrateContactStep (fun _ => "") [] false {} {}
        { surrogateId := 7 }).failures.filter
        (fun f => f.reason == "missing email") = [] ∧
    (Contacts.migrateContactStep (fun _ => "") [] false {} {}
        { surrogateId := 7 }).createCalls = [] ∧
    (Contacts.migrateContactStep (fun _ => "") [] false {} {}
        { surrogateId := 8, id := some "c8" }).failures
      = [⟨"contact", "c8", "missing email"⟩,
         ⟨"contact", "c8",
          "migration error: email is required to create a HubSpot contact ghlContact=\"c8\""⟩] := by
  refine ⟨?_, ?_, ?_, ?_⟩ <;> decide

/-- C7 amended: a contact record with absent or empty email never reaches
the destination contact-create call, createBaseHubspotContact throws
"email is required to create a HubSpot contact ghlContact=..." for it, and
the loop counts it as failed.  The "missing email" FailureRecord upsert is
attempted, but it writes only when the record has a truthy source id — and
even then the loop's catch block re-upserts the same (contact, sourceId)
key with reason "migration error: email is required ...", overwriting
"missing email" as the record's final reason; a record with no source id
gets only the "migration error: ..." row keyed by its surrogate id, and no
"missing email" row at all. -/
theorem c7_missing_email_boundary :
    (∀ (dateIso : JsVal → String) (users : List UserRecord)
      (cc kc : Except String (Option String)) (ka : Except String Unit)
      (db : Contacts.CtDb) (g : ContactRecord),
      Js.strTruthy g.email = false →
      (Contacts.createBaseHubspotContact dateIso users false cc kc ka
          db g).2
        = .error ("email is required to create a HubSpot contact ghlContact="
            ++ Js.jsonStringifyOptStr g.id) ∧
      (Contacts.createBaseHubspotContact dateIso users false cc kc ka
          db g).1.createCalls = db.createCalls ∧
      (Contacts.createBaseHubspotContact dateIso users false cc kc ka
          db g).1.failures
        = recordFailedMigration db.failures (some "contact") g.id
            "missing email") ∧
    (∀ (dateIso : JsVal → String) (users : List UserRecord)
      (orc : Contacts.ContactOracles) (s : Contacts.CtState)
      (g : ContactRecord),
      Js.strTruthy g.email = false →
      (Contacts.migrateContactStep dateIso users false orc s g).createCalls
        = s.createCalls ∧
      (Contacts.migrateContactStep dateIso users false orc s
          g).summary.failed = s.summary.failed + 1) ∧
    (∀ (dateIso : JsVal → String) (users : List UserRecord)
      (orc : Contacts.ContactOracles) (s : Contacts.CtState)
      (g : ContactRecord),
      Js.strTruthy g.email = false → Js.strTruthy g.id = true →
      (Contacts.migrateContactStep dateIso users false orc s g).failures
        = s.failures
          ++ [⟨"contact", g.id.getD "", "missing email"⟩,
              ⟨"contact", g.id.getD "",
               "migration error: email is required to create a HubSpot contact ghlContact="
                 ++ Js.jsonStringifyOptStr g.id⟩]) ∧
    (∀ (dateIso : JsVal → String) (users : List UserRecord)
      (orc : Contacts.ContactOracles) (s : Contacts.CtState)
      (g : ContactRecord),
      Js.strTruthy g.email = false → g.id = none →
      (Contacts.migrateContactStep dateIso users false orc s g).failures
        = recordFailedMigration s.failures (some "contact")
            (some (toString g.surrogateId))
            "migration error: email is required to create a HubSpot contact ghlContact=undefined") := by
  refine ⟨?_, ?_, ?_, ?_⟩
  · intro dateIso users cc kc ka db g hmail
    rw [Contacts.base_missing_email dateIso users cc kc ka db g hmail]
    exact ⟨rfl, rfl, rfl⟩
  · intro dateIso users orc s g hmail
    rw [Contacts.step_missing_email dateIso users orc s g hmail]
    exact ⟨rfl, rfl⟩
  · intro dateIso users orc s g hmail hid
    obtain ⟨hsome, hne⟩ := Js.strTruthy_getD hid
    rw [Contacts.step_missing_email dateIso users orc s g hmail, hsome]
    have h1 : Js.strTruthy (some "contact") = true := by decide
    simp [recordFailedMigration, coalesce, Js.strTruthy, h1, hne,
      List.append_assoc]
    rw [← String.append_assoc]
    rfl
  · intro dateIso users orc s g hmail hidnone
    rw [Contacts.step_missing_email dateIso users orc s g hmail, hidnone]
    rfl

/-- Witness for C7: the amended theorem applied at concrete inputs — an
email-less contact with no source id makes zero create calls and gets only
the surrogate-keyed "migration error" row, and an email-less contact with
source id "c8" gets the "missing email" row followed by the overwriting
"migration error" row. -/
theorem c7_missing_email_boundary_witness :
    (Contacts.migrateContactStep (fun _ => "") [] false {} {}
        { surrogateId := 7 }).createCalls = [] ∧
    (Contacts.migrateContactStep (fun _ => "") [] false {} {}
        { surrogateId := 7 }).failures
      = [⟨"contact", "7",
          "migration error: email is required to create a HubSpot contact ghlContact=undefined"⟩] ∧
    (Contacts.migrateContactStep (fun _ => "") [] false {} {}
        { surrogateId := 8, id := some "c8" }).failures
      = [⟨"contact", "c8", "missing email"⟩,
         ⟨"contact", "c8",
          "migration error: email is required to create a HubSpot contact ghlContact=\"c8\""⟩] :=
  ⟨(c7_missing_email_boundary.2.1 (fun _ => "") [] {} {}
      { surrogateId := 7 } (by decide)).1,
    c7_missing_email_boundary.2.2.2 (fun _ => "") [] {} {}
      { surrogateId := 7 } (by decide) rfl,
    c7_missing_email_boundary.2.2.1 (fun _ => "") [] {} {}
      { surrogateId := 8, id := some "c8" } (by decide) (by decide)⟩
